import Mathlib

/-!
Verification development for the OpenRouter chat-completion client
(`src/lib/openrouter.service.ts`, types in `src/lib/openrouter.types.ts`).

The client is embedded shallowly:

* JSON values are the inductive `Json`.  JavaScript numbers are modelled as
  `Int`: every number appearing in the claims is a whole, finite number, so
  the `Number.isFinite` / `Number.isInteger` guards of the source are the
  constant `true` on the model and fractional / NaN behaviour is never
  exercised.  The JavaScript `undefined` value (produced by out-of-range
  tuple indexing) is the constructor `Json.undef`.
* JavaScript strings are Lean `String`s; the string builtins used by the
  service (`trim`, `toLowerCase`) are re-implemented over the character
  list (`String.data`).  The JavaScript `\s` class is modelled by
  `jsIsWs`, covering the ASCII whitespace actually exercised.
* The platform builtins `fetch` and `JSON.parse` are the environment: an
  `Env` carries the outcome of every HTTP attempt (`fetch`), addressed by
  the 1-based attempt counter of the retry loop, and the result of parsing
  a body text (`jsonParse`, `none` meaning `JSON.parse` throws).
* Recursive traversals of JSON values / schemas (the schema validator and
  `deepEqual`) take an explicit fuel argument so that every definition is
  a total, kernel-computable function; the fuel only bounds the recursion
  depth, and one unit of fuel more than `sizeOf` the schema is always
  sufficient because each recursive call descends into a strict sub-schema.
  Running out of fuel yields a `VALIDATION_ERROR`-tagged error, matching
  the kind of every error the source validator can raise.
* Thrown `OpenRouterServiceError`s become `Except ServiceError` results;
  the `detail` / `cause` diagnostic payloads of the source errors are not
  modelled (no claim inspects them), only `message`, `code` and `status`.
-/

namespace OpenRouter

/-- JSON values (plus the JavaScript `undefined`), numbers restricted to
integers as explained in the module docstring. -/
inductive Json where
  | null : Json
  | undef : Json
  | bool (b : Bool) : Json
  | num (n : Int) : Json
  | str (s : String) : Json
  | arr (elems : List Json) : Json
  | obj (fields : List (String × Json)) : Json

/-- Property access `value[key]` on a JSON value: `some` the first binding
of the key when the value is an object, `none` (JavaScript `undefined`)
otherwise. -/
def Json.getField : Json → String → Option Json
  | .obj fields, key => (fields.find? (fun f => f.fst = key)).map Prod.snd
  | _, _ => none

/-- The JavaScript `in` operator restricted to objects: key membership. -/
def Json.hasKey : Json → String → Bool
  | .obj fields, key => fields.any (fun f => f.fst = key)
  | _, _ => false

/-- The whitespace class used by `String.prototype.trim` and the `\s`
regex class (ASCII portion; no claim exercises Unicode whitespace). -/
def jsIsWs (c : Char) : Bool :=
  c = ' ' || c = '\t' || c = '\n' || c = '\r' || c = '\x0b' || c = '\x0c'

/-- Drop leading JavaScript whitespace from a character list. -/
def trimLeftList (l : List Char) : List Char := l.dropWhile jsIsWs

/-- Drop trailing JavaScript whitespace from a character list. -/
def trimRightList (l : List Char) : List Char :=
  (l.reverse.dropWhile jsIsWs).reverse

/-- Drop leading and trailing JavaScript whitespace. -/
def trimList (l : List Char) : List Char := trimRightList (trimLeftList l)

/-- Model of `String.prototype.trim`. -/
def jsTrim (s : String) : String := ⟨trimList s.data⟩

/-- The machine-readable error kinds of `OpenRouterServiceError`. -/
inductive ErrorCode where
  | CONFIGURATION_ERROR
  | VALIDATION_ERROR
  | NETWORK_ERROR
  | API_ERROR
deriving DecidableEq, Repr

/-- `OpenRouterServiceError` without its diagnostic `detail`/`cause`
payloads (no claim inspects those). -/
structure ServiceError where
  message : String
  code : ErrorCode
  status : Option Nat
deriving DecidableEq, Repr

/-- The `JsonSchema` shape of `openrouter.types.ts`, one constructor whose
fields mirror the interface.  The `type` keyword (single name or union) is
normalised to a list of names up front, matching `normalizeSchemaTypes`;
type names are kept as raw strings so the `default: return false` arm of
`matchesSchemaType` is representable.  `items` is a single schema
(`Sum.inl`) or a positional tuple (`Sum.inr`); `additionalProperties` is a
boolean (`Sum.inl`) or a nested schema (`Sum.inr`).  `description` is
omitted (never read by the service). -/
inductive JsonSchema where
  | mk
    (type : Option (List String))
    (properties : Option (List (String × JsonSchema)))
    (required : Option (List String))
    (items : Option (Sum JsonSchema (List JsonSchema)))
    (enum : Option (List Json))
    (additionalProperties : Option (Sum Bool JsonSchema))
    (minItems : Option Int)
    (maxItems : Option Int)
    (minLength : Option Int)
    (maxLength : Option Int)
    (anyOf : Option (List JsonSchema))
    (allOf : Option (List JsonSchema))
    (oneOf : Option (List JsonSchema))
    (title : Option String)

def JsonSchema.type : JsonSchema → Option (List String)
  | .mk t _ _ _ _ _ _ _ _ _ _ _ _ _ => t

def JsonSchema.properties : JsonSchema → Option (List (String × JsonSchema))
  | .mk _ p _ _ _ _ _ _ _ _ _ _ _ _ => p

def JsonSchema.required : JsonSchema → Option (List String)
  | .mk _ _ r _ _ _ _ _ _ _ _ _ _ _ => r

def JsonSchema.items : JsonSchema → Option (Sum JsonSchema (List JsonSchema))
  | .mk _ _ _ i _ _ _ _ _ _ _ _ _ _ => i

def JsonSchema.enum : JsonSchema → Option (List Json)
  | .mk _ _ _ _ e _ _ _ _ _ _ _ _ _ => e

def JsonSchema.additionalProperties : JsonSchema → Option (Sum Bool JsonSchema)
  | .mk _ _ _ _ _ a _ _ _ _ _ _ _ _ => a

def JsonSchema.minItems : JsonSchema → Option Int
  | .mk _ _ _ _ _ _ m _ _ _ _ _ _ _ => m

def JsonSchema.maxItems : JsonSchema → Option Int
  | .mk _ _ _ _ _ _ _ m _ _ _ _ _ _ => m

def JsonSchema.minLength : JsonSchema → Option Int
  | .mk _ _ _ _ _ _ _ _ m _ _ _ _ _ => m

def JsonSchema.maxLength : JsonSchema → Option Int
  | .mk _ _ _ _ _ _ _ _ _ m _ _ _ _ => m

def JsonSchema.anyOf : JsonSchema → Option (List JsonSchema)
  | .mk _ _ _ _ _ _ _ _ _ _ a _ _ _ => a

def JsonSchema.allOf : JsonSchema → Option (List JsonSchema)
  | .mk _ _ _ _ _ _ _ _ _ _ _ a _ _ => a

def JsonSchema.oneOf : JsonSchema → Option (List JsonSchema)
  | .mk _ _ _ _ _ _ _ _ _ _ _ _ o _ => o

def JsonSchema.title : JsonSchema → Option String
  | .mk _ _ _ _ _ _ _ _ _ _ _ _ _ t => t

/-- The schema with every keyword absent (the `{}` literal of scenario F). -/
def JsonSchema.empty : JsonSchema :=
  .mk none none none none none none none none none none none none none none

/-- `normalizeSchemaTypes`: absent `type` is the empty union.  (Lifting a
single name to a one-element list and discarding non-string entries happen
at the type level of the embedding.) -/
def normalizeSchemaTypes (typeField : Option (List String)) : List String :=
  typeField.getD []

/-- `matchesSchemaType`: the runtime type test of one schema type name
against a value, including the `default: return false` arm for unknown
names.  `number` and `integer` coincide on the integer-valued model (see
the module docstring). -/
def matchesSchemaType (typeName : String) (value : Json) : Bool :=
  if typeName = "string" then
    match value with | .str _ => true | _ => false
  else if typeName = "number" then
    match value with | .num _ => true | _ => false
  else if typeName = "integer" then
    match value with | .num _ => true | _ => false
  else if typeName = "boolean" then
    match value with | .bool _ => true | _ => false
  else if typeName = "object" then
    match value with | .obj _ => true | _ => false
  else if typeName = "array" then
    match value with | .arr _ => true | _ => false
  else if typeName = "null" then
    match value with | .null => true | _ => false
  else false

/-- `deepEqual`: structural equality used by the `enum` keyword.
Primitives compare by value (`Object.is`), arrays elementwise in order,
objects by entry count plus key-indexed lookup of every left entry in the
right value (order-independent).  The fuel argument only bounds the
recursion depth of the model. -/
def deepEqual : Nat → Json → Json → Bool
  | 0, _, _ => false
  | Nat.succ n, left, right =>
    match left, right with
    | .null, .null => true
    | .undef, .undef => true
    | .bool a, .bool b => a = b
    | .num a, .num b => a = b
    | .str a, .str b => a = b
    | .arr a, .arr b =>
        a.length = b.length &&
          (a.zip b).all (fun pair => deepEqual n pair.fst pair.snd)
    | .obj a, .obj b =>
        a.length = b.length &&
          a.all (fun entry =>
            match Json.getField (.obj b) entry.fst with
            | some w => deepEqual n entry.snd w
            | none => false)
    | _, _ => false

/-- The error every validator failure raises (always `VALIDATION_ERROR`,
never carrying an HTTP status). -/
def validationError (message : String) : ServiceError :=
  ⟨message, .VALIDATION_ERROR, none⟩

/-- Fuel exhaustion of the model's bounded recursion (see the module
docstring); tagged like every other validator failure. -/
def fuelExhaustedError (pointer : String) : ServiceError :=
  validationError ("Model recursion fuel exhausted at " ++ pointer ++ ".")

/-- Sequential validation of the `allOf` branches: the source `for` loop
that rethrows the first failure.  `v` is the recursive validator. -/
def seqValidate (v : JsonSchema → Except ServiceError Unit) :
    List JsonSchema → Except ServiceError Unit
  | [] => .ok ()
  | c :: rest =>
    match v c with
    | .error e => .error e
    | .ok _ => seqValidate v rest

/-- The `required` loop of `validateObject`: each listed key must be a key
of the object (`key in value`). -/
def checkRequired (fields : List (String × Json)) (pointer : String) :
    List String → Except ServiceError Unit
  | [] => .ok ()
  | key :: rest =>
    if (Json.obj fields).hasKey key then checkRequired fields pointer rest
    else .error (validationError
      ("Missing required property \"" ++ key ++ "\" at " ++ pointer ++ "."))

/-- The `Object.entries(schema.properties)` loop of `validateObject`:
every declared property present in the value is validated at the extended
pointer.  `v` is the recursive validator. -/
def validateProps (v : JsonSchema → Json → String → Except ServiceError Unit)
    (fields : List (String × Json)) (pointer : String) :
    List (String × JsonSchema) → Except ServiceError Unit
  | [] => .ok ()
  | (property, propertySchema) :: rest =>
    match (Json.obj fields).getField property with
    | some value =>
      match v propertySchema value (pointer ++ "/" ++ property) with
      | .error e => .error e
      | .ok _ => validateProps v fields pointer rest
    | none => validateProps v fields pointer rest

/-- Elementwise validation of an array against a single `items` schema
(the `data.forEach` loop), tracking the element index in the pointer. -/
def validateEachItem (v : JsonSchema → Json → String → Except ServiceError Unit)
    (itemSchema : JsonSchema) (pointer : String) :
    Nat → List Json → Except ServiceError Unit
  | _, [] => .ok ()
  | index, entry :: rest =>
    match v itemSchema entry (pointer ++ "/" ++ toString index) with
    | .error e => .error e
    | .ok _ => validateEachItem v itemSchema pointer (index + 1) rest

/-- Tuple validation (`schema.items.forEach`): the n-th element of the
value is validated against the n-th schema; indexing past the end of the
value yields the JavaScript `undefined`, i.e. `Json.undef`. -/
def validateTupleItems (v : JsonSchema → Json → String → Except ServiceError Unit)
    (entries : List Json) (pointer : String) :
    Nat → List JsonSchema → Except ServiceError Unit
  | _, [] => .ok ()
  | index, itemSchema :: rest =>
    match v itemSchema (entries.getD index Json.undef)
        (pointer ++ "/" ++ toString index) with
    | .error e => .error e
    | .ok _ => validateTupleItems v entries pointer (index + 1) rest

/-- `validateObject`: required keys, declared properties, and the
`additionalProperties: false` rejection listing the unexpected keys.
`v` is the recursive validator (the `this` of the source method). -/
def validateObject (v : JsonSchema → Json → String → Except ServiceError Unit)
    (schema : JsonSchema) (data : Json) (pointer : String) :
    Except ServiceError Unit :=
  match data with
  | .obj fields =>
    match checkRequired fields pointer (schema.required.getD []) with
    | .error e => .error e
    | .ok _ =>
      match validateProps v fields pointer (schema.properties.getD []) with
      | .error e => .error e
      | .ok _ =>
        match schema.additionalProperties, schema.properties with
        | some (Sum.inl false), some props =>
          let allowed := props.map Prod.fst
          let unexpected :=
            (fields.map Prod.fst).filter (fun key => !(allowed.contains key))
          if unexpected.isEmpty then .ok ()
          else .error (validationError
            ("Unexpected properties at " ++ pointer ++ ": " ++
              String.intercalate ", " unexpected ++ "."))
        | _, _ => .ok ()
  | _ => .error (validationError ("Value at " ++ pointer ++ " must be an object."))

/-- `validateArray`: `minItems`/`maxItems` bounds, then tuple or uniform
`items` validation. -/
def validateArray (v : JsonSchema → Json → String → Except ServiceError Unit)
    (schema : JsonSchema) (data : Json) (pointer : String) :
    Except ServiceError Unit :=
  match data with
  | .arr entries =>
    if (match schema.minItems with
        | some m => ((entries.length : Int) < m : Bool)
        | none => false) then
      .error (validationError
        ("Array at " ++ pointer ++ " must contain at least " ++
          toString (schema.minItems.getD 0) ++ " items."))
    else if (match schema.maxItems with
        | some m => ((m : Int) < entries.length : Bool)
        | none => false) then
      .error (validationError
        ("Array at " ++ pointer ++ " must contain at most " ++
          toString (schema.maxItems.getD 0) ++ " items."))
    else
      match schema.items with
      | some (Sum.inr tupleSchemas) =>
        validateTupleItems v entries pointer 0 tupleSchemas
      | some (Sum.inl itemSchema) =>
        validateEachItem v itemSchema pointer 0 entries
      | none => .ok ()
  | _ => .error (validationError ("Value at " ++ pointer ++ " must be an array."))

/-- The scalar tail of `validateAgainstSchema`: the string length bounds
(`minLength`/`maxLength`) checked when the declared types include
`string` and the value is a string, then the number / integer check when
the declared types include one of them (on the integer-valued model the
wholeness and finiteness guards are identities, see the module
docstring). -/
def validateScalars (schema : JsonSchema) (data : Json) (pointer : String)
    (expectedTypes : List String) : Except ServiceError Unit :=
  match ((match data, expectedTypes.contains "string" with
         | .str s, true =>
           -- string length modelled as the character count (no claim
           -- exercises surrogate pairs, where UTF-16 units would differ)
           if (match schema.minLength with
               | some m => ((s.length : Int) < m : Bool)
               | none => false) then
             .error (validationError
               ("String at " ++ pointer ++ " is shorter than minLength " ++
                 toString (schema.minLength.getD 0) ++ "."))
           else if (match schema.maxLength with
               | some m => ((m : Int) < s.length : Bool)
               | none => false) then
             .error (validationError
               ("String at " ++ pointer ++ " exceeds maxLength " ++
                 toString (schema.maxLength.getD 0) ++ "."))
           else .ok ()
         | _, _ => .ok ()) : Except ServiceError Unit) with
  | .error e => .error e
  | .ok _ =>
    if expectedTypes.contains "number" || expectedTypes.contains "integer" then
      match data with
      | .num _ => .ok ()
      | _ => .error (validationError
          ("Value at " ++ pointer ++ " must be a valid number."))
    else .ok ()

/-- `validateAgainstSchema`, the recursive JSON-Schema validator:
composition keywords first (`anyOf`, `oneOf` return early; `allOf` falls
through), then `enum`, the declared `type` union, and the object / array /
string / number branches, raising pointer-annotated `VALIDATION_ERROR`s.
The fuel bounds the recursion depth of the model (module docstring). -/
def validateAgainstSchema : Nat → JsonSchema → Json → String →
    Except ServiceError Unit
  | 0, _, _, pointer => .error (fuelExhaustedError pointer)
  | Nat.succ n, schema, data, pointer =>
    match schema.anyOf with
    | some cands =>
      if cands.any (fun c =>
          match validateAgainstSchema n c data pointer with
          | .ok _ => true
          | .error _ => false) then .ok ()
      else .error (validationError
        ("Value at " ++ pointer ++ " does not match any schema in anyOf."))
    | none =>
    match schema.oneOf with
    | some cands =>
      if (cands.filter (fun c =>
          match validateAgainstSchema n c data pointer with
          | .ok _ => true
          | .error _ => false)).length = 1 then .ok ()
      else .error (validationError
        ("Value at " ++ pointer ++ " must match exactly one schema in oneOf."))
    | none =>
    match (match schema.allOf with
           | some cands =>
             seqValidate (fun c => validateAgainstSchema n c data pointer) cands
           | none => .ok ()) with
    | .error e => .error e
    | .ok _ =>
    match ((match schema.enum with
           | some options =>
             if options.any (fun value => deepEqual n value data) then .ok ()
             else .error (validationError
               ("Value at " ++ pointer ++
                 " must be one of the allowed enum entries."))
           | none => .ok ()) : Except ServiceError Unit) with
    | .error e => .error e
    | .ok _ =>
    let expectedTypes := normalizeSchemaTypes schema.type
    match (if expectedTypes.isEmpty ||
              expectedTypes.any (fun typeName => matchesSchemaType typeName data)
           then (.ok () : Except ServiceError Unit)
           else .error (validationError
             ("Value at " ++ pointer ++ " must be of type " ++
               String.intercalate " | " expectedTypes ++ "."))) with
    | .error e => .error e
    | .ok _ =>
    let shouldTreatAsObject :=
      schema.properties.isSome &&
        (expectedTypes.contains "object" || expectedTypes.isEmpty)
    let shouldTreatAsArray :=
      schema.items.isSome &&
        (expectedTypes.contains "array" || expectedTypes.isEmpty)
    if shouldTreatAsObject && matchesSchemaType "object" data then
      validateObject (fun c d p => validateAgainstSchema n c d p) schema data pointer
    else if shouldTreatAsArray && (match data with | .arr _ => true | _ => false) then
      validateArray (fun c d p => validateAgainstSchema n c d p) schema data pointer
    else validateScalars schema data pointer expectedTypes

/-- First fence regex of `stripCodeFences`:
`/^```(?:json)?\s*([\s\S]*?)\s*```$/i` on the trimmed payload, as the
captured group (`none` when the regex does not match).  The anchored
closing fence forces the final three characters to be backticks, so the
lazy group together with the greedy trailing `\s*` is exactly the text
between the fences with its trailing whitespace removed.  Consuming the
optional case-insensitive `json` marker greedily agrees with the
backtracking engine: whenever a match exists that skips a present `json`
marker, the remainder is long enough that the consuming alternative
matches too, and the engine prefers it. -/
def fenceMatchJson (t : List Char) : Option (List Char) :=
  if t.take 3 = "```".data then
    let rest := t.drop 3
    let rest :=
      if (rest.take 4).map Char.toLower = "json".data then rest.drop 4 else rest
    let rest := rest.dropWhile jsIsWs
    let r := rest.reverse
    if r.take 3 = "```".data then some (((r.drop 3).dropWhile jsIsWs).reverse)
    else none
  else none

/-- Second fence regex of `stripCodeFences`: `/^```([\s\S]*?)```$/i`, tried
only when the first regex does not match; the group is everything strictly
between a leading and a trailing triple backtick (which must not
overlap). -/
def fenceMatchPlain (t : List Char) : Option (List Char) :=
  if t.take 3 = "```".data ∧ 6 ≤ t.length ∧ t.reverse.take 3 = "```".data then
    some ((t.drop 3).take (t.length - 6))
  else none

/-- `stripCodeFences`: trim the payload, try the two fence regexes in
order, and return the trimmed captured group when the match produced a
non-empty (truthy) group, the trimmed payload otherwise. -/
def stripCodeFences (payload : String) : String :=
  let trimmed := trimList payload.data
  match (fenceMatchJson trimmed).orElse (fun _ => fenceMatchPlain trimmed) with
  | some grp => if grp.isEmpty then ⟨trimmed⟩ else ⟨trimList grp⟩
  | none => ⟨trimmed⟩

/-- `deserializeStructuredContent`: strip Markdown code fences, then parse
with the builtin `JSON.parse` (`jsonParse`, supplied by the environment;
a `none` result is the parse throwing). -/
def deserializeStructuredContent (jsonParse : String → Option Json)
    (content : String) : Except ServiceError Json :=
  match jsonParse (stripCodeFences content) with
  | some value => .ok value
  | none => .error (validationError
      "Assistant response could not be parsed as JSON.")

/-- The active response-format registration (`ResponseFormatConfig`). -/
structure ResponseFormatConfig where
  schema : JsonSchema
  name : String
  strict : Bool

/-- `ResponseFormatOptions` of `setResponseFormat`. -/
structure ResponseFormatOptions where
  name : Option String
  strict : Option Bool

/-- The immutable configuration of a client.  The referer / app-title
headers, the logger and the floating-point sampling parameters are not
modelled: no claim observes headers, log lines or sampling values. -/
structure ServiceConfig where
  apiKey : Option String
  timeoutMs : Nat
  maxRetries : Nat
  retryDelayMs : Nat
  backoffMultiplier : Nat

/-- The mutable fields of an `OpenRouterService` instance together with
its configuration. -/
structure ClientState where
  config : ServiceConfig
  modelName : String
  currentSystemMessage : String
  currentUserMessage : String
  responseFormat : Option ResponseFormatConfig
  schemaCounter : Nat

def DEFAULT_MODEL_NAME : String := "mistralai/mistral-7b-instruct:free"
def DEFAULT_TIMEOUT_MS : Nat := 60000
def DEFAULT_MAX_RETRIES : Nat := 2
def DEFAULT_RETRY_DELAY_MS : Nat := 1000
def DEFAULT_BACKOFF_MULTIPLIER : Nat := 2
def DEFAULT_SYSTEM_MESSAGE : String :=
  "You are a helpful assistant that turns dense study materials into concise flashcards."

/-- Constructor options (`OpenRouterServiceOptions`); the unmodelled
fields are listed at `ServiceConfig`.  `maxRetries` is an `Int` because
the source clamps negative values with `Math.max(0, maxRetries)`; the
backoff multiplier is integral on the model (default `2`; no claim
exercises fractional multipliers). -/
structure ServiceOptions where
  apiKey : Option String
  model : Option String
  timeoutMs : Option Nat
  maxRetries : Option Int
  retryDelayMs : Option Nat
  backoffMultiplier : Option Nat

/-- The constructor option record with every field absent. -/
def ServiceOptions.empty : ServiceOptions := ⟨none, none, none, none, none, none⟩

/-- The `OpenRouterService` constructor.  `processEnvKey` and
`metaEnvKey` model `process.env.OPENROUTER_API_KEY` and
`import.meta.env.OPENROUTER_API_KEY`, consulted in that order after the
explicit option. -/
def OpenRouterService.make (options : ServiceOptions)
    (processEnvKey metaEnvKey : Option String) : ClientState :=
  { config :=
    { apiKey := options.apiKey.orElse
        (fun _ => processEnvKey.orElse (fun _ => metaEnvKey))
      timeoutMs := options.timeoutMs.getD DEFAULT_TIMEOUT_MS
      maxRetries :=
        match options.maxRetries with
        | some k => (max 0 k).toNat
        | none => DEFAULT_MAX_RETRIES
      retryDelayMs := options.retryDelayMs.getD DEFAULT_RETRY_DELAY_MS
      backoffMultiplier :=
        match options.backoffMultiplier with
        | some b => if 0 < b then b else DEFAULT_BACKOFF_MULTIPLIER
        | none => DEFAULT_BACKOFF_MULTIPLIER }
    modelName :=
      match options.model with
      | some m => if jsTrim m = "" then DEFAULT_MODEL_NAME else jsTrim m
      | none => DEFAULT_MODEL_NAME
    currentSystemMessage := DEFAULT_SYSTEM_MESSAGE
    currentUserMessage := ""
    responseFormat := none
    schemaCounter := 0 }

/-- `ensureNonEmptyMessage` (the `typeof` guard is enforced by the Lean
type of the argument): trim, reject blank input with a
`VALIDATION_ERROR`. -/
def ensureNonEmptyMessage (value : String) (fieldLabel : String) :
    Except ServiceError String :=
  let trimmed := jsTrim value
  if trimmed = "" then
    .error (validationError (fieldLabel ++ " cannot be empty."))
  else .ok trimmed

def setSystemMessage (st : ClientState) (message : String) :
    Except ServiceError ClientState :=
  match ensureNonEmptyMessage message "System message" with
  | .ok trimmed => .ok { st with currentSystemMessage := trimmed }
  | .error e => .error e

def clearSystemMessage (st : ClientState) : ClientState :=
  { st with currentSystemMessage := "" }

def setUserMessage (st : ClientState) (message : String) :
    Except ServiceError ClientState :=
  match ensureNonEmptyMessage message "User message" with
  | .ok trimmed => .ok { st with currentUserMessage := trimmed }
  | .error e => .error e

def clearUserMessage (st : ClientState) : ClientState :=
  { st with currentUserMessage := "" }

/-- `generateSchemaName`: bump the per-client counter and produce
`structured_output_N`. -/
def generateSchemaName (st : ClientState) : String × ClientState :=
  ("structured_output_" ++ toString (st.schemaCounter + 1),
    { st with schemaCounter := st.schemaCounter + 1 })

/-- `setResponseFormat`: resolve the schema name through the
`options.name?.trim() || schema.title?.trim() || generateSchemaName()`
chain (the counter is consumed only when the generator runs) and register
the schema; the non-null-object guard on `schema` is enforced by the
`JsonSchema` type. -/
def setResponseFormat (st : ClientState) (schema : JsonSchema)
    (options : ResponseFormatOptions) : Except ServiceError ClientState :=
  let strict := options.strict.getD true
  let fromTitle : String × ClientState :=
    match schema.title.map jsTrim with
    | some t => if t = "" then generateSchemaName st else (t, st)
    | none => generateSchemaName st
  let resolved : String × ClientState :=
    match options.name.map jsTrim with
    | some n => if n = "" then fromTitle else (n, st)
    | none => fromTitle
  if resolved.fst = "" then
    .error (validationError "Response schema name could not be determined.")
  else
    .ok { resolved.snd with responseFormat := some ⟨schema, resolved.fst, strict⟩ }

def clearResponseFormat (st : ClientState) : ClientState :=
  { st with responseFormat := none }

/-- `setModel` (the shallow parameter merge concerns only the unmodelled
sampling parameters). -/
def setModel (st : ClientState) (name : String) :
    Except ServiceError ClientState :=
  if jsTrim name = "" then
    .error (validationError "Model name must be a non-empty string.")
  else .ok { st with modelName := jsTrim name }

/-- One entry of the outgoing `messages` list. -/
structure RequestMessage where
  role : String
  content : String
deriving DecidableEq, Repr

/-- The outgoing request payload (minus the unmodelled sampling
parameters, which `buildModelParameters` merges in). -/
structure RequestPayload where
  model : String
  messages : List RequestMessage
  response_format : Option ResponseFormatConfig

/-- `buildRequestPayload`: the system message is prepended only when
non-empty, followed by the user message; the `response_format` block is
attached only when a schema is registered. -/
def buildRequestPayload (st : ClientState) (userMessage : String) :
    RequestPayload :=
  { model := st.modelName
    messages :=
      (if st.currentSystemMessage = "" then []
       else [⟨"system", st.currentSystemMessage⟩]) ++ [⟨"user", userMessage⟩]
    response_format := st.responseFormat }

/-- The outcome of one `fetch` call, as observed by the retry loop:
a response (status plus body text), expiry of the per-attempt timeout
(the `timedOut` flag path), or a thrown error classified by
`isAbortError(error) || isFetchError(error)` (`transient`). -/
inductive FetchOutcome where
  | response (status : Nat) (bodyText : String)
  | timeout
  | failure (transient : Bool)

/-- The platform environment of one send: the outcome of the n-th HTTP
attempt (1-based) and the builtin `JSON.parse` (`none` models a throw). -/
structure Env where
  fetch : Nat → FetchOutcome
  jsonParse : String → Option Json

/-- `Response.ok` of the fetch API: status in the 200–299 range. -/
def statusOk (status : Nat) : Bool := 200 ≤ status && status ≤ 299

def RETRIABLE_STATUS_CODES : List Nat :=
  [408, 409, 425, 429, 500, 502, 503, 504, 524]

/-- `shouldRetry`: status 0, a listed code (`RETRIABLE_STATUS_CODES.has`),
or any status of at least 500. -/
def shouldRetry (status : Nat) : Bool :=
  status = 0 || status ∈ RETRIABLE_STATUS_CODES || 500 ≤ status

/-- `delayForAttempt`: the exponential backoff delay in milliseconds. -/
def delayForAttempt (cfg : ServiceConfig) (attempt : Nat) : Nat :=
  cfg.retryDelayMs * cfg.backoffMultiplier ^ (attempt - 1)

/-- The body-reading step of one attempt: empty text parses to `{}`;
non-empty text is `JSON.parse`d, a parse failure being fatal
(`API_ERROR`) on an HTTP-success status and the `{message: rawText}`
fallback otherwise. -/
def readBody (jsonParse : String → Option Json) (status : Nat)
    (bodyText : String) : Except ServiceError Json :=
  if bodyText = "" then .ok (Json.obj [])
  else
    match jsonParse bodyText with
    | some parsed => .ok parsed
    | none =>
      if statusOk status then
        .error ⟨"Unable to parse OpenRouter JSON response.", .API_ERROR, none⟩
      else .ok (Json.obj [("message", Json.str bodyText)])

/-- `extractErrorMessage`: best-effort extraction from the error body
(`message` string, else `error` string, else `error.message` string). -/
def extractErrorMessage (body : Json) : Option String :=
  match body with
  | .obj _ =>
    match body.getField "message" with
    | some (.str m) => some m
    | _ =>
      match body.getField "error" with
      | some (.str e) => some e
      | some (.obj errFields) =>
        match (Json.obj errFields).getField "message" with
        | some (.str m) => some m
        | _ => none
      | _ => none
  | _ => none

/-- `normalizeResponse`: the body must be an object carrying `id` and
`choices` keys. -/
def normalizeResponse (body : Json) : Except ServiceError Json :=
  if body.hasKey "id" && body.hasKey "choices" then .ok body
  else .error ⟨"Unexpected OpenRouter response shape.", .API_ERROR, none⟩

/-- The after-loop failure of `executeRequest` (also reached by the
`break` statements); its `cause` diagnostic is not modelled. -/
def networkExhaustedError : ServiceError :=
  ⟨"OpenRouter request failed after all retry attempts.", .NETWORK_ERROR, none⟩

def apiKeyMissingError : ServiceError :=
  ⟨"OpenRouter API key is missing. Provide it via constructor or OPENROUTER_API_KEY.",
    .CONFIGURATION_ERROR, none⟩

/-- `assertApiKey`: a missing (or empty, hence falsy) key is a
`CONFIGURATION_ERROR`. -/
def assertApiKey (cfg : ServiceConfig) : Except ServiceError Unit :=
  match cfg.apiKey with
  | some key => if key = "" then .error apiKeyMissingError else .ok ()
  | none => .error apiKeyMissingError

/-- The outcome of `executeRequest`: the result together with the number
of HTTP attempts issued and the backoff delays awaited (in ms). -/
structure ExecOutcome where
  result : Except ServiceError Json
  attempts : Nat
  delays : List Nat

/-- The retry loop of `executeRequest`.  The loop runs `attempt` from 1
while the pre-increment counter is at most `maxRetries`, so the fuel —
the number of loop iterations still permitted — starts at
`maxRetries + 1`; exhausted fuel is the loop condition turning false,
which raises the after-loop `NETWORK_ERROR`.  A thrown
`OpenRouterServiceError` (fatal body parse, final status error,
normalization failure) is rethrown by the `catch` block and exits the
loop at once. -/
def executeLoop (cfg : ServiceConfig) (env : Env) :
    Nat → Nat → List Nat → ExecOutcome
  | 0, attempt, delays => ⟨.error networkExhaustedError, attempt, delays⟩
  | Nat.succ fuelRest, attempt, delays =>
    let att := attempt + 1
    match env.fetch att with
    | .response status bodyText =>
      match readBody env.jsonParse status bodyText with
      | .error e => ⟨.error e, att, delays⟩
      | .ok parsedBody =>
        if !statusOk status then
          if shouldRetry status && att ≤ cfg.maxRetries then
            executeLoop cfg env fuelRest att (delays ++ [delayForAttempt cfg att])
          else
            ⟨.error ⟨(extractErrorMessage parsedBody).getD
                ("OpenRouter request failed with status " ++ toString status ++ "."),
              if status = 401 then .CONFIGURATION_ERROR else .API_ERROR,
              some status⟩, att, delays⟩
        else
          match normalizeResponse parsedBody with
          | .ok response => ⟨.ok response, att, delays⟩
          | .error e => ⟨.error e, att, delays⟩
    | .timeout =>
      if att ≤ cfg.maxRetries then
        executeLoop cfg env fuelRest att (delays ++ [delayForAttempt cfg att])
      else ⟨.error networkExhaustedError, att, delays⟩
    | .failure transient =>
      if transient then
        if att ≤ cfg.maxRetries then
          executeLoop cfg env fuelRest att (delays ++ [delayForAttempt cfg att])
        else ⟨.error networkExhaustedError, att, delays⟩
      else
        ⟨.error ⟨"Unexpected error while communicating with OpenRouter.",
          .NETWORK_ERROR, none⟩, att, delays⟩

/-- `executeRequest`: assert the key, then run the retry loop.  A missing
key aborts with zero attempts. -/
def executeRequest (cfg : ServiceConfig) (env : Env) : ExecOutcome :=
  match assertApiKey cfg with
  | .error e => ⟨.error e, 0, []⟩
  | .ok _ => executeLoop cfg env (cfg.maxRetries + 1) 0 []

/-- `extractAssistantContent`: a trimmed non-empty string content, or the
newline join of the string parts of a content array (empty parts filtered
out), else `API_ERROR`. -/
def extractAssistantContent (message : Json) : Except ServiceError String :=
  match message.getField "content" with
  | some (.str s) =>
    if jsTrim s = "" then
      .error ⟨"Assistant response did not include textual content.",
        .API_ERROR, none⟩
    else .ok (jsTrim s)
  | some (.arr partsRaw) =>
    let parts := (partsRaw.map (fun part =>
      match part with
      | .str s => s
      | .obj _ =>
        match part.getField "text" with
        | some (.str t) => t
        | _ => ""
      | _ => "")).filter (fun s => s ≠ "")
    if parts.isEmpty then
      .error ⟨"Assistant response did not include textual content.",
        .API_ERROR, none⟩
    else .ok (jsTrim (String.intercalate "\n" parts))
  | _ =>
    .error ⟨"Assistant response did not include textual content.",
      .API_ERROR, none⟩

/-- `parseStructuredPayload`: a server-side pre-parsed `parsed` field is
used when it is a non-null object (arrays included). -/
def parseStructuredPayload (message : Json) : Option Json :=
  match message.getField "parsed" with
  | some (.obj fields) => some (.obj fields)
  | some (.arr elems) => some (.arr elems)
  | _ => none

/-- The normalized `OpenRouterChatResult`.  Fields the source copies from
the (dynamically typed) response are kept as raw JSON accesses. -/
structure ChatResult where
  id : Option Json
  model : Option Json
  content : String
  parsed : Option Json
  usage : Option Json
  finishReason : Option Json
  raw : Json

/-- The observable outcome of one `sendChatMessage` call: result, HTTP
attempts issued, backoff delays awaited, and the client state after the
call. -/
structure SendOutcome where
  result : Except ServiceError ChatResult
  attempts : Nat
  delays : List Nat
  finalState : ClientState

/-- `sendChatMessage`.  `vfuel` bounds the recursion depth of the schema
validator (model apparatus, see the module docstring).  The resolved user
message is written back into the client state before the request is
issued; the transport model addresses attempts through `env`, so the
built payload (`buildRequestPayload`) is not consumed by the loop. -/
def sendChatMessage (vfuel : Nat) (st : ClientState) (env : Env)
    (userMessage : String) : SendOutcome :=
  let resolvedUserMessage :=
    if jsTrim userMessage = "" then st.currentUserMessage else jsTrim userMessage
  if resolvedUserMessage = "" then
    ⟨.error (validationError
        "User message is required before sending a chat request."),
      0, [], st⟩
  else
    let st1 := { st with currentUserMessage := resolvedUserMessage }
    let exec := executeRequest st1.config env
    let result : Except ServiceError ChatResult :=
      match exec.result with
      | .error e => .error e
      | .ok apiResponse =>
        match apiResponse.getField "choices" with
        | some (.arr (choice :: _)) =>
          let message := (choice.getField "message").getD Json.null
          match extractAssistantContent message with
          | .error e => .error e
          | .ok content =>
            match st1.responseFormat with
            | none =>
              .ok ⟨apiResponse.getField "id", apiResponse.getField "model",
                content, none, apiResponse.getField "usage",
                choice.getField "finish_reason", apiResponse⟩
            | some responseFormat =>
              match ((match parseStructuredPayload message with
                     | some pre => .ok pre
                     | none =>
                       deserializeStructuredContent env.jsonParse content) :
                     Except ServiceError Json) with
              | .error e => .error e
              | .ok parsed =>
                match validateAgainstSchema vfuel responseFormat.schema
                    parsed "#" with
                | .error e => .error e
                | .ok _ =>
                  .ok ⟨apiResponse.getField "id", apiResponse.getField "model",
                    content, some parsed, apiResponse.getField "usage",
                    choice.getField "finish_reason", apiResponse⟩
        | _ =>
          .error ⟨"The OpenRouter response did not include any choices.",
            .API_ERROR, none⟩
    ⟨result, exec.attempts, exec.delays, st1⟩

/-- The public mutating operations of a client, for reachability
statements about its state. -/
inductive ClientOp where
  | setSystem (message : String)
  | clearSystem
  | setUser (message : String)
  | clearUser
  | setResponseFmt (schema : JsonSchema) (options : ResponseFormatOptions)
  | clearResponseFmt
  | setModelName (name : String)
  | send (vfuel : Nat) (env : Env) (message : String)

/-- The state after one public operation (a thrown setter error leaves
the state unchanged, since every setter validates before mutating). -/
def applyOp (st : ClientState) (op : ClientOp) : ClientState :=
  match op with
  | .setSystem m =>
    match setSystemMessage st m with | .ok st2 => st2 | .error _ => st
  | .clearSystem => clearSystemMessage st
  | .setUser m =>
    match setUserMessage st m with | .ok st2 => st2 | .error _ => st
  | .clearUser => clearUserMessage st
  | .setResponseFmt schema opts =>
    match setResponseFormat st schema opts with | .ok st2 => st2 | .error _ => st
  | .clearResponseFmt => clearResponseFormat st
  | .setModelName name =>
    match setModel st name with | .ok st2 => st2 | .error _ => st
  | .send vfuel env m => (sendChatMessage vfuel st env m).finalState

/-- Sequential application of public operations. -/
def applyOps (st : ClientState) (ops : List ClientOp) : ClientState :=
  ops.foldl applyOp st

/-! ### Concrete scenario data -/

/-- `{type:"string"}` -/
def stringSchema : JsonSchema :=
  .mk (some ["string"]) none none none none none none none none none
    none none none none

/-- `{type:"object", required:["front","back"], properties:{front:{type:"string"}, back:{type:"string"}}}` -/
def frontBackSchema : JsonSchema :=
  .mk (some ["object"]) (some [("front", stringSchema), ("back", stringSchema)])
    (some ["front", "back"]) none none none none none none none none none
    none none

/-- `{type:"array", items: frontBackSchema}` -/
def flashcardsArraySchema : JsonSchema :=
  .mk (some ["array"]) none none (some (Sum.inl frontBackSchema)) none none
    none none none none none none none none

/-- The flashcard schema of scenarios A and B. -/
def flashcardSchema : JsonSchema :=
  .mk (some ["object"]) (some [("flashcards", flashcardsArraySchema)])
    (some ["flashcards"]) none none none none none none none none none
    none none

/-- The value decoded from the scenario-A content. -/
def flashcardsGoodValue : Json :=
  .obj [("flashcards",
    .arr [.obj [("front", .str "Q"), ("back", .str "A")]])]

/-- The value decoded from the scenario-B content (missing `back`). -/
def flashcardsBadValue : Json :=
  .obj [("flashcards", .arr [.obj [("front", .str "Q")]])]

/-- A normalized API response whose single choice carries the content
token `FC` (which the environment's `JSON.parse` decodes to the scenario-A
value). -/
def scenarioAResponse : Json :=
  .obj [("id", .str "gen-5"),
    ("choices", .arr [.obj [("message",
      .obj [("role", .str "assistant"), ("content", .str "FC")])]])]

/-- Environment for scenario A: one HTTP 200 whose body token decodes to
`scenarioAResponse`, and whose content token decodes to the scenario-A
value. -/
def scenarioAEnv : Env :=
  ⟨fun _ => .response 200 "RESP5",
   fun t =>
     if t = "RESP5" then some scenarioAResponse
     else if t = "FC" then some flashcardsGoodValue
     else none⟩

/-- A client with the flashcard schema registered. -/
def scenarioAClient : ClientState :=
  ⟨⟨some "key", 60000, 2, 1000, 2⟩, "m", DEFAULT_SYSTEM_MESSAGE, "",
    some ⟨flashcardSchema, "flashcards", true⟩, 0⟩

/-- C5: with the flashcard schema, the scenario-A value validates and is
returned as the result's parsed value unchanged, while the scenario-B
value (missing `back`) fails with a `VALIDATION_ERROR` whose message
carries the JSON-Pointer `#/flashcards/0`. -/
theorem claim_C5_flashcard_scenarios :
    validateAgainstSchema 10 flashcardSchema flashcardsGoodValue "#" = .ok () ∧
    (sendChatMessage 10 scenarioAClient scenarioAEnv "make cards").result =
      .ok ⟨some (.str "gen-5"), none, "FC", some flashcardsGoodValue, none,
        none, scenarioAResponse⟩ ∧
    validateAgainstSchema 10 flashcardSchema flashcardsBadValue "#" =
      .error (validationError
        "Missing required property \"back\" at #/flashcards/0.") :=
  ⟨rfl, rfl, rfl⟩

/-- C2: a client constructed without an API key (no option, no
environment variable) fails `sendChatMessage` with a
`CONFIGURATION_ERROR` before any HTTP attempt. -/
theorem claim_C2_missing_api_key (options : ServiceOptions) (env : Env)
    (vfuel : Nat) (message : String)
    (hkey : options.apiKey = none) (hmsg : jsTrim message ≠ "") :
    (sendChatMessage vfuel (OpenRouterService.make options none none) env
        message).result = .error apiKeyMissingError ∧
    (sendChatMessage vfuel (OpenRouterService.make options none none) env
        message).attempts = 0 ∧
    apiKeyMissingError.code = .CONFIGURATION_ERROR := by
  have hresolved :
      (if jsTrim message = ""
       then (OpenRouterService.make options none none).currentUserMessage
       else jsTrim message) = jsTrim message := by
    simp [hmsg]
  simp only [sendChatMessage, hresolved, hmsg, if_neg hmsg]
  simp [executeRequest, assertApiKey, OpenRouterService.make, hkey, hmsg,
    Option.orElse]
  rfl

/-- Witness for C2 at a concrete optionless client. -/
theorem claim_C2_missing_api_key_witness :
    (sendChatMessage 1
        (OpenRouterService.make ServiceOptions.empty none none)
        ⟨fun _ => .timeout, fun _ => none⟩ "hi").result =
      .error apiKeyMissingError ∧
    (sendChatMessage 1
        (OpenRouterService.make ServiceOptions.empty none none)
        ⟨fun _ => .timeout, fun _ => none⟩ "hi").attempts = 0 ∧
    apiKeyMissingError.code = .CONFIGURATION_ERROR :=
  claim_C2_missing_api_key ServiceOptions.empty
    ⟨fun _ => .timeout, fun _ => none⟩ 1 "hi" rfl (by decide)

/-- C4: an HTTP-success response whose non-empty body does not parse as
JSON is a fatal `API_ERROR` — the loop stops at the current attempt no
matter how much retry budget is left. -/
theorem claim_C4_malformed_success_body (cfg : ServiceConfig) (env : Env)
    (fuelRest attempt : Nat) (delays : List Nat) (status : Nat)
    (bodyText : String)
    (hfetch : env.fetch (attempt + 1) = .response status bodyText)
    (hok : statusOk status = true) (hbody : bodyText ≠ "")
    (hparse : env.jsonParse bodyText = none) :
    executeLoop cfg env (fuelRest + 1) attempt delays =
      ⟨.error ⟨"Unable to parse OpenRouter JSON response.", .API_ERROR, none⟩,
        attempt + 1, delays⟩ := by
  simp [executeLoop, hfetch, readBody, hbody, hparse, hok]

/-- Witness for C4: a 200 with unparseable body on the first attempt of a
fresh loop with plenty of budget. -/
theorem claim_C4_malformed_success_body_witness :
    executeLoop ⟨some "k", 60000, 5, 1000, 2⟩
        ⟨fun _ => .response 200 "oops", fun _ => none⟩ 6 0 [] =
      ⟨.error ⟨"Unable to parse OpenRouter JSON response.", .API_ERROR, none⟩,
        1, []⟩ :=
  claim_C4_malformed_success_body ⟨some "k", 60000, 5, 1000, 2⟩
    ⟨fun _ => .response 200 "oops", fun _ => none⟩ 5 0 [] 200 "oops"
    rfl (by decide) (by decide) rfl

/-- The status carried by a response outcome (0 for the non-response
outcomes, which mirrors the status-0 convention for absent statuses). -/
def respStatus : FetchOutcome → Nat
  | .response status _ => status
  | _ => 0

theorem shouldRetry_statusOk_false (status : Nat)
    (h : shouldRetry status = true) : statusOk status = false := by
  have h' : (status = 0 ∨ status ∈ RETRIABLE_STATUS_CODES) ∨ 500 ≤ status := by
    simpa [shouldRetry] using h
  simp only [RETRIABLE_STATUS_CODES, List.mem_cons,
    List.not_mem_nil, or_false] at h'
  simp only [statusOk, Bool.and_eq_false_iff, decide_eq_false_iff_not, not_le]
  rcases h' with ⟨h | h | h | h | h | h | h | h | h | h⟩ | h <;> omega

theorem shouldRetry_ne_401 (status : Nat)
    (h : shouldRetry status = true) : status ≠ 401 := by
  intro hs
  subst hs
  exact absurd h (by decide)

theorem readBody_ok_of_not_ok (jsonParse : String → Option Json)
    (status : Nat) (bodyText : String) (hok : statusOk status = false) :
    ∃ parsedBody, readBody jsonParse status bodyText = .ok parsedBody := by
  by_cases hbody : bodyText = ""
  · refine ⟨Json.obj [], ?_⟩
    simp [readBody, hbody]
  · cases hparse : jsonParse bodyText with
    | some parsed =>
      refine ⟨parsed, ?_⟩
      simp [readBody, hbody, hparse]
    | none =>
      refine ⟨Json.obj [("message", Json.str bodyText)], ?_⟩
      simp [readBody, hbody, hparse, hok]

/-- One loop iteration on a retriable non-success status with retry
budget remaining: await the backoff delay and loop. -/
theorem executeLoop_step_retry (cfg : ServiceConfig) (env : Env)
    (fuelRest attempt : Nat) (delays : List Nat) (status : Nat)
    (bodyText : String) (pb : Json)
    (hfetch : env.fetch (attempt + 1) = .response status bodyText)
    (hpb : readBody env.jsonParse status bodyText = .ok pb)
    (hok : statusOk status = false)
    (hret : shouldRetry status = true)
    (hatt : attempt + 1 ≤ cfg.maxRetries) :
    executeLoop cfg env (fuelRest + 1) attempt delays =
      executeLoop cfg env fuelRest (attempt + 1)
        (delays ++ [delayForAttempt cfg (attempt + 1)]) := by
  conv_lhs => rw [executeLoop]
  simp [hfetch, hpb, hok, hret, hatt]

/-- One loop iteration on a non-success status that is either not
retriable or out of retry budget: fail permanently, `CONFIGURATION_ERROR`
for 401 and `API_ERROR` otherwise, carrying the extracted message and the
status. -/
theorem executeLoop_step_final (cfg : ServiceConfig) (env : Env)
    (fuelRest attempt : Nat) (delays : List Nat) (status : Nat)
    (bodyText : String) (pb : Json)
    (hfetch : env.fetch (attempt + 1) = .response status bodyText)
    (hpb : readBody env.jsonParse status bodyText = .ok pb)
    (hok : statusOk status = false)
    (hstop : shouldRetry status = false ∨ ¬ (attempt + 1 ≤ cfg.maxRetries)) :
    executeLoop cfg env (fuelRest + 1) attempt delays =
      ⟨.error ⟨(extractErrorMessage pb).getD
          ("OpenRouter request failed with status " ++ toString status ++ "."),
        if status = 401 then .CONFIGURATION_ERROR else .API_ERROR,
        some status⟩, attempt + 1, delays⟩ := by
  conv_lhs => rw [executeLoop]
  rcases hstop with h | h
  · simp [hfetch, hpb, hok, h]
  · simp [hfetch, hpb, hok, h]

/-- When every attempt the budget allows yields a retriable HTTP status,
the loop issues every remaining attempt and fails at the last one with an
`API_ERROR` carrying that attempt's status. -/
theorem executeLoop_all_retriable (cfg : ServiceConfig) (env : Env)
    (hall : ∀ i, 1 ≤ i → i ≤ cfg.maxRetries + 1 →
      ∃ status bodyText, env.fetch i = .response status bodyText ∧
        shouldRetry status = true) :
    ∀ (fuelRest attempt : Nat) (delays : List Nat),
      attempt + (fuelRest + 1) = cfg.maxRetries + 1 →
      (executeLoop cfg env (fuelRest + 1) attempt delays).attempts =
        cfg.maxRetries + 1 ∧
      ∃ e, (executeLoop cfg env (fuelRest + 1) attempt delays).result =
          .error e ∧
        e.code = .API_ERROR ∧
        e.status = some (respStatus (env.fetch (cfg.maxRetries + 1))) := by
  intro fuelRest
  induction fuelRest with
  | zero =>
    intro attempt delays hinv
    obtain ⟨status, bodyText, hfetch, hret⟩ :=
      hall (attempt + 1) (by omega) (by omega)
    have hok := shouldRetry_statusOk_false status hret
    obtain ⟨pb, hpb⟩ := readBody_ok_of_not_ok env.jsonParse status bodyText hok
    have h401 := shouldRetry_ne_401 status hret
    have hatt : ¬ (attempt + 1 ≤ cfg.maxRetries) := by omega
    have hlast : cfg.maxRetries + 1 = attempt + 1 := by omega
    rw [executeLoop_step_final cfg env 0 attempt delays status bodyText pb
      hfetch hpb hok (Or.inr hatt), hlast]
    refine ⟨rfl, ⟨_, rfl, ?_, ?_⟩⟩
    · simp [h401]
    · simp [hfetch, respStatus]
  | succ f ih =>
    intro attempt delays hinv
    obtain ⟨status, bodyText, hfetch, hret⟩ :=
      hall (attempt + 1) (by omega) (by omega)
    have hok := shouldRetry_statusOk_false status hret
    obtain ⟨pb, hpb⟩ := readBody_ok_of_not_ok env.jsonParse status bodyText hok
    have hatt : attempt + 1 ≤ cfg.maxRetries := by omega
    rw [executeLoop_step_retry cfg env (f + 1) attempt delays status bodyText
      pb hfetch hpb hok hret hatt]
    exact ih (attempt + 1)
      (delays ++ [delayForAttempt cfg (attempt + 1)]) (by omega)

/-- The scenario-C normalized response. -/
def scenarioCResponse : Json :=
  .obj [("id", .str "gen-1"), ("model", .str "m"),
    ("choices", .arr [.obj [("message",
      .obj [("role", .str "assistant"), ("content", .str "hello")])]])]

/-- Scenario-C environment: HTTP 429 on the first two attempts, then an
HTTP 200 whose body token decodes to `scenarioCResponse`. -/
def scenarioCEnv : Env :=
  ⟨fun attempt =>
    if attempt ≤ 2 then .response 429 "" else .response 200 "BODY200",
   fun t => if t = "BODY200" then some scenarioCResponse else none⟩

/-- A keyed client with `maxRetries = 2` and no response format. -/
def scenarioCClient : ClientState :=
  ⟨⟨some "k", 60000, 2, 1000, 2⟩, "m", DEFAULT_SYSTEM_MESSAGE, "", none, 0⟩

/-- Scenario-D configuration: `maxRetries = 1`. -/
def scenarioDConfig : ServiceConfig := ⟨some "k", 60000, 1, 1000, 2⟩

/-- Scenario-D environment: HTTP 500 with empty body on every attempt. -/
def scenarioDEnv : Env := ⟨fun _ => .response 500 "", fun _ => none⟩

/-- C1: when every attempt yields a retriable status, the client issues
exactly `maxRetries + 1` HTTP attempts and fails with an `API_ERROR`
carrying the last status; and in scenario C (429, 429, 200 with
`maxRetries = 2`) the call returns the normalized result after exactly 3
attempts. -/
theorem claim_C1_retry_count :
    (∀ (cfg : ServiceConfig) (env : Env),
      (∃ key, cfg.apiKey = some key ∧ key ≠ "") →
      (∀ i, 1 ≤ i → i ≤ cfg.maxRetries + 1 →
        ∃ status bodyText, env.fetch i = .response status bodyText ∧
          shouldRetry status = true) →
      (executeRequest cfg env).attempts = cfg.maxRetries + 1 ∧
      ∃ e, (executeRequest cfg env).result = .error e ∧
        e.code = .API_ERROR ∧
        e.status = some (respStatus (env.fetch (cfg.maxRetries + 1)))) ∧
    ((sendChatMessage 1 scenarioCClient scenarioCEnv "hi").attempts = 3 ∧
      (sendChatMessage 1 scenarioCClient scenarioCEnv "hi").result =
        .ok ⟨some (.str "gen-1"), some (.str "m"), "hello", none, none,
          none, scenarioCResponse⟩) := by
  constructor
  · intro cfg env hkey hall
    obtain ⟨key, hk, hne⟩ := hkey
    have hexec : executeRequest cfg env =
        executeLoop cfg env (cfg.maxRetries + 1) 0 [] := by
      simp [executeRequest, assertApiKey, hk, hne]
    rw [hexec]
    exact executeLoop_all_retriable cfg env hall cfg.maxRetries 0 [] (by omega)
  · exact ⟨rfl, rfl⟩

/-- Witness for C1 at scenario D: HTTP 500 throughout with
`maxRetries = 1` gives exactly 2 attempts and an `API_ERROR` with status
500. -/
theorem claim_C1_retry_count_witness :
    (executeRequest scenarioDConfig scenarioDEnv).attempts = 2 ∧
    ∃ e, (executeRequest scenarioDConfig scenarioDEnv).result = .error e ∧
      e.code = .API_ERROR ∧ e.status = some 500 :=
  claim_C1_retry_count.1 scenarioDConfig scenarioDEnv
    ⟨"k", rfl, by decide⟩ (fun _ _ _ => ⟨500, "", rfl, by decide⟩)

def c3Config : ServiceConfig := ⟨some "k", 60000, 2, 1000, 2⟩

def c3OkResponse : Json := .obj [("id", .str "gen-3"), ("choices", .arr [])]

/-- A single HTTP 200 whose body token decodes to `c3OkResponse`. -/
def c3OkEnv : Env :=
  ⟨fun _ => .response 200 "B3",
   fun t => if t = "B3" then some c3OkResponse else none⟩

/-- C3 counterexample: status 200 lies outside the retriable set (it is
nonzero, below 500 and not a listed code), yet the call produces no error
at all — it returns the normalized body after its single attempt — so
"the resulting error kind is … API_ERROR otherwise" fails as stated. -/
theorem claim_C3_counterexample :
    shouldRetry 200 = false ∧
    (executeRequest c3Config c3OkEnv).attempts = 1 ∧
    (executeRequest c3Config c3OkEnv).delays = [] ∧
    (executeRequest c3Config c3OkEnv).result = .ok c3OkResponse :=
  ⟨by decide, rfl, rfl, rfl⟩

/-- C3 (amended to non-success statuses): a keyed client receiving a
non-retriable, non-success status makes exactly one HTTP attempt, awaits
no backoff delay, and fails with `CONFIGURATION_ERROR` for status 401 and
`API_ERROR` otherwise, carrying the status and the extracted error
message (with the status-interpolated fallback). -/
theorem claim_C3_one_attempt_nonretriable (cfg : ServiceConfig) (env : Env)
    (status : Nat) (bodyText : String) (key : String)
    (hk : cfg.apiKey = some key) (hne : key ≠ "")
    (hfetch : env.fetch 1 = .response status bodyText)
    (hretry : shouldRetry status = false)
    (hnotok : statusOk status = false) :
    (executeRequest cfg env).attempts = 1 ∧
    (executeRequest cfg env).delays = [] ∧
    ∃ parsedBody, readBody env.jsonParse status bodyText = .ok parsedBody ∧
      (executeRequest cfg env).result = .error
        ⟨(extractErrorMessage parsedBody).getD
            ("OpenRouter request failed with status " ++ toString status ++ "."),
          if status = 401 then .CONFIGURATION_ERROR else .API_ERROR,
          some status⟩ := by
  obtain ⟨pb, hpb⟩ := readBody_ok_of_not_ok env.jsonParse status bodyText hnotok
  have hexec : executeRequest cfg env =
      executeLoop cfg env (cfg.maxRetries + 1) 0 [] := by
    simp [executeRequest, assertApiKey, hk, hne]
  rw [hexec, executeLoop_step_final cfg env cfg.maxRetries 0 [] status
    bodyText pb hfetch hpb hnotok (Or.inl hretry)]
  exact ⟨rfl, rfl, pb, hpb, rfl⟩

/-- A single HTTP 404 whose body token decodes to an error body with a
`message` field. -/
def c3Env404 : Env :=
  ⟨fun _ => .response 404 "NF",
   fun t => if t = "NF" then some (.obj [("message", .str "not found")])
     else none⟩

/-- Witness for the amended C3 at a concrete 404. -/
theorem claim_C3_one_attempt_nonretriable_witness :
    (executeRequest c3Config c3Env404).attempts = 1 ∧
    (executeRequest c3Config c3Env404).delays = [] ∧
    ∃ parsedBody, readBody c3Env404.jsonParse 404 "NF" = .ok parsedBody ∧
      (executeRequest c3Config c3Env404).result = .error
        ⟨(extractErrorMessage parsedBody).getD
            ("OpenRouter request failed with status " ++ toString 404 ++ "."),
          if 404 = 401 then .CONFIGURATION_ERROR else .API_ERROR,
          some 404⟩ :=
  claim_C3_one_attempt_nonretriable c3Config c3Env404 404 "NF" "k" rfl
    (by decide) rfl (by decide) (by decide)

theorem structured_output_name_ne_empty (n : Nat) :
    "structured_output_" ++ toString n ≠ "" := by
  intro h
  have h2 := congrArg String.length h
  rw [String.length_append] at h2
  have h3 : String.length "structured_output_" = 18 := rfl
  have h4 : String.length "" = 0 := rfl
  rw [h3, h4] at h2
  omega

/-- C8: the registered schema name is the trimmed non-empty
`options.name`, else the trimmed non-empty `schema.title`, else
`structured_output_N` from the per-client counter (bumped only when the
generator runs); scenario F registers `structured_output_1` then
`structured_output_2` on one instance. -/
theorem claim_C8_schema_name_resolution :
    (∀ (st : ClientState) (schema : JsonSchema)
        (opts : ResponseFormatOptions) (nm : String),
      opts.name = some nm → jsTrim nm ≠ "" →
      setResponseFormat st schema opts =
        .ok { st with
              responseFormat :=
                some ⟨schema, jsTrim nm, opts.strict.getD true⟩ }) ∧
    (∀ (st : ClientState) (schema : JsonSchema)
        (opts : ResponseFormatOptions) (ttl : String),
      (∀ nm, opts.name = some nm → jsTrim nm = "") →
      schema.title = some ttl → jsTrim ttl ≠ "" →
      setResponseFormat st schema opts =
        .ok { st with
              responseFormat :=
                some ⟨schema, jsTrim ttl, opts.strict.getD true⟩ }) ∧
    (∀ (st : ClientState) (schema : JsonSchema)
        (opts : ResponseFormatOptions),
      (∀ nm, opts.name = some nm → jsTrim nm = "") →
      (∀ ttl, schema.title = some ttl → jsTrim ttl = "") →
      setResponseFormat st schema opts =
        .ok { st with
              schemaCounter := st.schemaCounter + 1,
              responseFormat :=
                some ⟨schema,
                  "structured_output_" ++ toString (st.schemaCounter + 1),
                  opts.strict.getD true⟩ }) ∧
    (∃ st1, setResponseFormat
        (OpenRouterService.make ServiceOptions.empty none none)
        JsonSchema.empty ⟨none, none⟩ = .ok st1 ∧
      st1.responseFormat.map ResponseFormatConfig.name =
        some "structured_output_1" ∧
      ∃ st2, setResponseFormat st1 JsonSchema.empty ⟨none, none⟩ = .ok st2 ∧
        st2.responseFormat.map ResponseFormatConfig.name =
          some "structured_output_2") := by
  refine ⟨?_, ?_, ?_, ?_⟩
  · intro st schema opts nm hnm hne
    simp [setResponseFormat, hnm, hne]
  · intro st schema opts ttl hname httl htne
    cases hnm : opts.name with
    | none => simp [setResponseFormat, hnm, httl, htne]
    | some nm =>
      have hblank := hname nm hnm
      simp [setResponseFormat, hnm, hblank, httl, htne]
  · intro st schema opts hname htitle
    have hgen := structured_output_name_ne_empty (st.schemaCounter + 1)
    cases hnm : opts.name with
    | none =>
      cases httl : schema.title with
      | none =>
        simp [setResponseFormat, hnm, httl, generateSchemaName, hgen]
      | some ttl =>
        have hblank := htitle ttl httl
        simp [setResponseFormat, hnm, httl, hblank, generateSchemaName, hgen]
    | some nm =>
      have hblankn := hname nm hnm
      cases httl : schema.title with
      | none =>
        simp [setResponseFormat, hnm, hblankn, httl, generateSchemaName, hgen]
      | some ttl =>
        have hblank := htitle ttl httl
        simp [setResponseFormat, hnm, hblankn, httl, hblank,
          generateSchemaName, hgen]
  · exact ⟨_, rfl, rfl, _, rfl, rfl⟩

/-- Witness for C8: an explicitly named registration on a concrete
client. -/
theorem claim_C8_schema_name_resolution_witness :
    setResponseFormat (OpenRouterService.make ServiceOptions.empty none none)
        JsonSchema.empty ⟨some " fc ", none⟩ =
      .ok { OpenRouterService.make ServiceOptions.empty none none with
            responseFormat :=
              some ⟨JsonSchema.empty, jsTrim " fc ", true⟩ } :=
  claim_C8_schema_name_resolution.1
    (OpenRouterService.make ServiceOptions.empty none none)
    JsonSchema.empty ⟨some " fc ", none⟩ " fc " rfl (by decide)

def c10Client : ClientState :=
  ⟨⟨some "k", 60000, 0, 1000, 2⟩, "m", DEFAULT_SYSTEM_MESSAGE, "", none, 0⟩

def c10Env : Env := ⟨fun _ => .failure false, fun _ => none⟩

/-- C10: whenever `sendChatMessage` gets past message validation it
overwrites the stored default user message with the resolved message of
that call, so a later call with a blank argument behaves exactly like a
call repeating the previous message — whether or not `setUserMessage` was
ever called. -/
theorem claim_C10_send_overwrites_user_message (vfuel : Nat)
    (st : ClientState) (env : Env) (m : String) (hm : jsTrim m ≠ "") :
    (sendChatMessage vfuel st env m).finalState.currentUserMessage =
      jsTrim m ∧
    (∀ (vfuel2 : Nat) (env2 : Env) (w : String), jsTrim w = "" →
      sendChatMessage vfuel2 (sendChatMessage vfuel st env m).finalState
          env2 w =
        sendChatMessage vfuel2 (sendChatMessage vfuel st env m).finalState
          env2 m) := by
  have h1 : (sendChatMessage vfuel st env m).finalState.currentUserMessage =
      jsTrim m := by
    simp [sendChatMessage, hm]
  refine ⟨h1, ?_⟩
  intro vfuel2 env2 w hw
  simp only [sendChatMessage, hw, h1, hm]
  simp [hm]

/-- Witness for C10: after a send with message `first`, a whitespace-only
send is the same call as repeating `first`. -/
theorem claim_C10_send_overwrites_user_message_witness :
    (sendChatMessage 1 c10Client c10Env "first").finalState.currentUserMessage =
      jsTrim "first" ∧
    sendChatMessage 1 (sendChatMessage 1 c10Client c10Env "first").finalState
        c10Env "   " =
      sendChatMessage 1 (sendChatMessage 1 c10Client c10Env "first").finalState
        c10Env "first" :=
  ⟨(claim_C10_send_overwrites_user_message 1 c10Client c10Env "first"
      (by decide)).1,
   (claim_C10_send_overwrites_user_message 1 c10Client c10Env "first"
      (by decide)).2 1 c10Env "   " (by decide)⟩

/-! ### Every validator failure is a `VALIDATION_ERROR` (spec section 7) -/

theorem seqValidate_error_code (f : JsonSchema → Except ServiceError Unit)
    (hf : ∀ c e, f c = .error e → e.code = .VALIDATION_ERROR) :
    ∀ (l : List JsonSchema) (e : ServiceError),
      seqValidate f l = .error e → e.code = .VALIDATION_ERROR := by
  intro l
  induction l with
  | nil => intro e h; simp [seqValidate] at h
  | cons c rest ih =>
    intro e h
    cases hc : f c with
    | error e2 =>
      simp only [seqValidate, hc] at h
      injection h with h2
      exact h2 ▸ hf c e2 hc
    | ok u =>
      simp only [seqValidate, hc] at h
      exact ih e h

theorem checkRequired_error_code (fields : List (String × Json))
    (pointer : String) :
    ∀ (keys : List String) (e : ServiceError),
      checkRequired fields pointer keys = .error e →
      e.code = .VALIDATION_ERROR := by
  intro keys
  induction keys with
  | nil => intro e h; simp [checkRequired] at h
  | cons key rest ih =>
    intro e h
    cases hk : (Json.obj fields).hasKey key with
    | true =>
      simp only [checkRequired, hk, if_true] at h
      exact ih e h
    | false =>
      simp only [checkRequired, hk, Bool.false_eq_true, if_false] at h
      injection h with h2
      rw [← h2]
      rfl

theorem validateProps_error_code
    (v : JsonSchema → Json → String → Except ServiceError Unit)
    (hv : ∀ c d p e, v c d p = .error e → e.code = .VALIDATION_ERROR)
    (fields : List (String × Json)) (pointer : String) :
    ∀ (props : List (String × JsonSchema)) (e : ServiceError),
      validateProps v fields pointer props = .error e →
      e.code = .VALIDATION_ERROR := by
  intro props
  induction props with
  | nil => intro e h; simp [validateProps] at h
  | cons entry rest ih =>
    intro e h
    obtain ⟨property, propertySchema⟩ := entry
    cases hg : (Json.obj fields).getField property with
    | none =>
      simp only [validateProps, hg] at h
      exact ih e h
    | some value =>
      cases hvv : v propertySchema value (pointer ++ "/" ++ property) with
      | error e2 =>
        simp only [validateProps, hg, hvv] at h
        injection h with h2
        exact h2 ▸ hv propertySchema value (pointer ++ "/" ++ property) e2 hvv
      | ok u =>
        simp only [validateProps, hg, hvv] at h
        exact ih e h

theorem validateEachItem_error_code
    (v : JsonSchema → Json → String → Except ServiceError Unit)
    (hv : ∀ c d p e, v c d p = .error e → e.code = .VALIDATION_ERROR)
    (itemSchema : JsonSchema) (pointer : String) :
    ∀ (entries : List Json) (index : Nat) (e : ServiceError),
      validateEachItem v itemSchema pointer index entries = .error e →
      e.code = .VALIDATION_ERROR := by
  intro entries
  induction entries with
  | nil => intro index e h; simp [validateEachItem] at h
  | cons entry rest ih =>
    intro index e h
    cases hvv : v itemSchema entry (pointer ++ "/" ++ toString index) with
    | error e2 =>
      simp only [validateEachItem, hvv] at h
      injection h with h2
      exact h2 ▸ hv itemSchema entry (pointer ++ "/" ++ toString index) e2 hvv
    | ok u =>
      simp only [validateEachItem, hvv] at h
      exact ih (index + 1) e h

theorem validateTupleItems_error_code
    (v : JsonSchema → Json → String → Except ServiceError Unit)
    (hv : ∀ c d p e, v c d p = .error e → e.code = .VALIDATION_ERROR)
    (entries : List Json) (pointer : String) :
    ∀ (tupleSchemas : List JsonSchema) (index : Nat) (e : ServiceError),
      validateTupleItems v entries pointer index tupleSchemas = .error e →
      e.code = .VALIDATION_ERROR := by
  intro tupleSchemas
  induction tupleSchemas with
  | nil => intro index e h; simp [validateTupleItems] at h
  | cons itemSchema rest ih =>
    intro index e h
    cases hvv : v itemSchema (entries.getD index Json.undef)
        (pointer ++ "/" ++ toString index) with
    | error e2 =>
      simp only [validateTupleItems, hvv] at h
      injection h with h2
      exact h2 ▸ hv itemSchema (entries.getD index Json.undef)
        (pointer ++ "/" ++ toString index) e2 hvv
    | ok u =>
      simp only [validateTupleItems, hvv] at h
      exact ih (index + 1) e h

theorem validateScalars_error_code (schema : JsonSchema) (data : Json)
    (pointer : String) (expectedTypes : List String) (e : ServiceError)
    (h : validateScalars schema data pointer expectedTypes = .error e) :
    e.code = .VALIDATION_ERROR := by
  unfold validateScalars at h
  cases hcs : expectedTypes.contains "string" with
  | true =>
    simp only [hcs] at h
    cases data <;>
      (split at h
       · rename_i e1 heq
         injection h with h2
         subst h2
         dsimp only [] at heq
         first
           | cases heq
           | (split at heq
              · simp at heq; subst heq; rfl
              · split at heq
                · simp at heq; subst heq; rfl
                · cases heq)
       · split at h
         · first
             | (dsimp only [] at h; cases h; rfl)
             | (dsimp only [] at h; cases h)
         · cases h)
  | false =>
    simp only [hcs] at h
    cases data <;>
      (split at h
       · first
           | (dsimp only [] at h; cases h; rfl)
           | (dsimp only [] at h; cases h)
       · cases h)

theorem validateObject_error_code
    (v : JsonSchema → Json → String → Except ServiceError Unit)
    (hv : ∀ c d p e, v c d p = .error e → e.code = .VALIDATION_ERROR)
    (schema : JsonSchema) (data : Json) (pointer : String) (e : ServiceError)
    (h : validateObject v schema data pointer = .error e) :
    e.code = .VALIDATION_ERROR := by
  cases data with
  | obj fields =>
    simp only [validateObject] at h
    cases hr : checkRequired fields pointer (schema.required.getD []) with
    | error e2 =>
      simp only [hr] at h
      injection h with h2
      exact h2 ▸ checkRequired_error_code fields pointer _ e2 hr
    | ok u =>
      simp only [hr] at h
      cases hp : validateProps v fields pointer (schema.properties.getD []) with
      | error e3 =>
        simp only [hp] at h
        injection h with h2
        exact h2 ▸ validateProps_error_code v hv fields pointer _ e3 hp
      | ok u2 =>
        simp only [hp] at h
        cases hap : schema.additionalProperties with
        | none => simp [hap] at h
        | some ab =>
          cases ab with
          | inr s2 => simp [hap] at h
          | inl b =>
            cases b with
            | true => simp [hap] at h
            | false =>
              cases hpr : schema.properties with
              | none => simp [hap, hpr] at h
              | some props =>
                simp only [hap, hpr] at h
                split at h
                · simp at h
                · injection h with h2
                  rw [← h2]
                  rfl
  | null => simp only [validateObject] at h; injection h with h2; rw [← h2]; rfl
  | undef => simp only [validateObject] at h; injection h with h2; rw [← h2]; rfl
  | bool b => simp only [validateObject] at h; injection h with h2; rw [← h2]; rfl
  | num n => simp only [validateObject] at h; injection h with h2; rw [← h2]; rfl
  | str s => simp only [validateObject] at h; injection h with h2; rw [← h2]; rfl
  | arr elems =>
    simp only [validateObject] at h; injection h with h2; rw [← h2]; rfl

theorem validateArray_error_code
    (v : JsonSchema → Json → String → Except ServiceError Unit)
    (hv : ∀ c d p e, v c d p = .error e → e.code = .VALIDATION_ERROR)
    (schema : JsonSchema) (data : Json) (pointer : String) (e : ServiceError)
    (h : validateArray v schema data pointer = .error e) :
    e.code = .VALIDATION_ERROR := by
  cases data with
  | arr entries =>
    simp only [validateArray] at h
    split at h
    · injection h with h2; rw [← h2]; rfl
    · split at h
      · injection h with h2; rw [← h2]; rfl
      · cases hit : schema.items with
        | none => simp [hit] at h
        | some it =>
          cases it with
          | inl itemSchema =>
            simp only [hit] at h
            exact validateEachItem_error_code v hv itemSchema pointer
              entries 0 e h
          | inr tupleSchemas =>
            simp only [hit] at h
            exact validateTupleItems_error_code v hv entries pointer
              tupleSchemas 0 e h
  | null => simp only [validateArray] at h; injection h with h2; rw [← h2]; rfl
  | undef => simp only [validateArray] at h; injection h with h2; rw [← h2]; rfl
  | bool b => simp only [validateArray] at h; injection h with h2; rw [← h2]; rfl
  | num n => simp only [validateArray] at h; injection h with h2; rw [← h2]; rfl
  | str s => simp only [validateArray] at h; injection h with h2; rw [← h2]; rfl
  | obj fields =>
    simp only [validateArray] at h; injection h with h2; rw [← h2]; rfl

/-- Every error `validateAgainstSchema` can return is tagged
`VALIDATION_ERROR` (the error-taxonomy invariant of the validator). -/
theorem validateAgainstSchema_error_code :
    ∀ (fuel : Nat) (schema : JsonSchema) (data : Json) (pointer : String)
      (e : ServiceError),
      validateAgainstSchema fuel schema data pointer = .error e →
      e.code = .VALIDATION_ERROR := by
  intro fuel
  induction fuel with
  | zero =>
    intro schema data pointer e h
    simp only [validateAgainstSchema] at h
    injection h with h2
    rw [← h2]
    rfl
  | succ n ih =>
    intro schema data pointer e h
    have hv : ∀ c d p e2, validateAgainstSchema n c d p = .error e2 →
        e2.code = .VALIDATION_ERROR := fun c d p e2 => ih c d p e2
    simp only [validateAgainstSchema] at h
    cases hA : schema.anyOf with
    | some cands =>
      simp only [hA] at h
      split at h
      · simp at h
      · injection h with h2; rw [← h2]; rfl
    | none =>
    simp only [hA] at h
    cases hO : schema.oneOf with
    | some cands =>
      simp only [hO] at h
      split at h
      · simp at h
      · injection h with h2; rw [← h2]; rfl
    | none =>
    simp only [hO] at h
    cases hall : (match schema.allOf with
        | some cands =>
          seqValidate (fun c => validateAgainstSchema n c data pointer) cands
        | none => .ok ()) with
    | error e1 =>
      simp only [hall] at h
      injection h with h2
      refine h2 ▸ ?_
      cases hAl : schema.allOf with
      | none => rw [hAl] at hall; simp at hall
      | some cands =>
        rw [hAl] at hall
        exact seqValidate_error_code _ (fun c e3 => hv c data pointer e3)
          cands e1 hall
    | ok u1 =>
    simp only [hall] at h
    cases hen : ((match schema.enum with
        | some options =>
          if options.any (fun value => deepEqual n value data) then
            Except.ok ()
          else
            Except.error (validationError
              ("Value at " ++ pointer ++
                " must be one of the allowed enum entries."))
        | none => Except.ok ()) : Except ServiceError Unit) with
    | error e1 =>
      simp only [hen] at h
      injection h with h2
      refine h2 ▸ ?_
      cases hEn : schema.enum with
      | none => rw [hEn] at hen; simp at hen
      | some options =>
        simp only [hEn] at hen
        split at hen
        · simp at hen
        · injection hen with h3; rw [← h3]; rfl
    | ok u2 =>
    simp only [hen] at h
    cases hty : (if (normalizeSchemaTypes schema.type).isEmpty ||
          (normalizeSchemaTypes schema.type).any
            (fun typeName => matchesSchemaType typeName data) then
        (Except.ok () : Except ServiceError Unit)
      else
        Except.error (validationError
          ("Value at " ++ pointer ++ " must be of type " ++
            String.intercalate " | " (normalizeSchemaTypes schema.type) ++
            "."))) with
    | error e1 =>
      simp only [hty] at h
      injection h with h2
      refine h2 ▸ ?_
      split at hty
      · simp at hty
      · injection hty with h3; rw [← h3]; rfl
    | ok u3 =>
    simp only [hty] at h
    split at h
    · exact validateObject_error_code _ hv schema data pointer e h
    · split at h
      · exact validateArray_error_code _ hv schema data pointer e h
      · exact validateScalars_error_code schema data pointer _ e h

/-- A value of any type name matching an object value must be named
`object` (the only runtime type test an object satisfies). -/
theorem matchesSchemaType_obj (t : String) (fields : List (String × Json))
    (h : matchesSchemaType t (Json.obj fields) = true) : t = "object" := by
  unfold matchesSchemaType at h
  split_ifs at h with h1 h2 h3 h4 h5 h6 h7
  any_goals simp at h
  exact h5

/-- `{type:"object", additionalProperties:false}` with no `properties`
map. -/
def c6Schema : JsonSchema :=
  .mk (some ["object"]) none none none none (some (Sum.inl false))
    none none none none none none none none

/-- C6 counterexample: a schema with `additionalProperties: false` but no
`properties` map accepts an object whose key `x` is declared nowhere —
the undeclared-key rejection is guarded on `schema.properties` being
present, so the claim fails as stated. -/
theorem claim_C6_counterexample :
    validateAgainstSchema 5 c6Schema (.obj [("x", .num 1)]) "#" = .ok () :=
  rfl

/-- C6 (amended to schemas that declare a `properties` map and are not
short-circuited by `anyOf`/`oneOf`): any object value with an undeclared
key is rejected with a `VALIDATION_ERROR`; when the value passes the
schema's `required` and per-property checks (and no composition/enum/type
keyword interferes), the error is exactly the one listing the offending
keys. -/
theorem claim_C6_undeclared_key_rejection :
    (∀ (fuel : Nat) (s : JsonSchema) (props : List (String × JsonSchema))
        (fields : List (String × Json)) (k : String),
      s.properties = some props →
      s.additionalProperties = some (Sum.inl false) →
      s.anyOf = none → s.oneOf = none →
      k ∈ fields.map Prod.fst → k ∉ props.map Prod.fst →
      ∃ e, validateAgainstSchema (fuel + 1) s (Json.obj fields) "#" =
          .error e ∧ e.code = .VALIDATION_ERROR) ∧
    (∀ (fuel : Nat) (s : JsonSchema) (props : List (String × JsonSchema))
        (fields : List (String × Json)),
      s.properties = some props →
      s.additionalProperties = some (Sum.inl false) →
      s.anyOf = none → s.oneOf = none → s.allOf = none → s.enum = none →
      s.type = some ["object"] →
      checkRequired fields "#" (s.required.getD []) = .ok () →
      validateProps (fun c d p => validateAgainstSchema fuel c d p) fields
        "#" props = .ok () →
      (fields.map Prod.fst).filter
          (fun key => !((props.map Prod.fst).contains key)) ≠ [] →
      validateAgainstSchema (fuel + 1) s (Json.obj fields) "#" =
        .error (validationError ("Unexpected properties at #: " ++
          String.intercalate ", " ((fields.map Prod.fst).filter
            (fun key => !((props.map Prod.fst).contains key))) ++ "."))) := by
  constructor
  · intro fuel s props fields k hprops hadd hanyOf honeOf hk hnk
    cases hres : validateAgainstSchema (fuel + 1) s (Json.obj fields) "#" with
    | error e =>
      exact ⟨e, rfl, validateAgainstSchema_error_code (fuel + 1) s
        (Json.obj fields) "#" e hres⟩
    | ok u =>
      exfalso
      simp only [validateAgainstSchema, hanyOf, honeOf] at hres
      cases hall : (match s.allOf with
          | some cands =>
            seqValidate
              (fun c => validateAgainstSchema fuel c (Json.obj fields) "#")
              cands
          | none => .ok ()) with
      | error e1 => simp only [hall] at hres; cases hres
      | ok u1 =>
      simp only [hall] at hres
      cases hen : ((match s.enum with
          | some options =>
            if options.any (fun value => deepEqual fuel value (Json.obj fields))
            then Except.ok ()
            else Except.error (validationError
              ("Value at " ++ "#" ++
                " must be one of the allowed enum entries."))
          | none => Except.ok ()) : Except ServiceError Unit) with
      | error e1 => simp only [hen] at hres; cases hres
      | ok u2 =>
      simp only [hen] at hres
      cases hty : (if (normalizeSchemaTypes s.type).isEmpty ||
            (normalizeSchemaTypes s.type).any
              (fun typeName => matchesSchemaType typeName (Json.obj fields))
          then (Except.ok () : Except ServiceError Unit)
          else Except.error (validationError
            ("Value at " ++ "#" ++ " must be of type " ++
              String.intercalate " | " (normalizeSchemaTypes s.type) ++
              "."))) with
      | error e1 => simp only [hty] at hres; cases hres
      | ok u3 =>
      simp only [hty] at hres
      have htyc : ((normalizeSchemaTypes s.type).isEmpty ||
          (normalizeSchemaTypes s.type).any
            (fun typeName => matchesSchemaType typeName (Json.obj fields))) =
          true := by
        by_contra hc
        rw [Bool.not_eq_true] at hc
        rw [hc] at hty
        cases hty
      have hobj : ((normalizeSchemaTypes s.type).contains "object" ||
          (normalizeSchemaTypes s.type).isEmpty) = true := by
        rcases (by simpa using htyc :
            (normalizeSchemaTypes s.type).isEmpty = true ∨
            ∃ t ∈ normalizeSchemaTypes s.type,
              matchesSchemaType t (Json.obj fields) = true) with hemp | ⟨t, ht, hmt⟩
        · simp [hemp]
        · have hteq := matchesSchemaType_obj t fields hmt
          subst hteq
          have hcont : (normalizeSchemaTypes s.type).contains "object" = true := by
            simpa using ht
          simp only [hcont, Bool.true_or]
      have hcond : ((s.properties.isSome &&
          ((normalizeSchemaTypes s.type).contains "object" ||
            (normalizeSchemaTypes s.type).isEmpty)) &&
          matchesSchemaType "object" (Json.obj fields)) = true := by
        rw [hprops, hobj]
        rfl
      rw [if_pos hcond] at hres
      simp only [validateObject] at hres
      cases hcr : checkRequired fields "#" (s.required.getD []) with
      | error e2 => simp only [hcr] at hres; cases hres
      | ok u4 =>
      simp only [hcr] at hres
      cases hvp : validateProps
          (fun c d p => validateAgainstSchema fuel c d p) fields "#"
          (s.properties.getD []) with
      | error e3 => simp only [hvp] at hres; cases hres
      | ok u5 =>
      simp only [hvp] at hres
      simp only [hprops, hadd] at hres
      have hkin : k ∈ (fields.map Prod.fst).filter
          (fun key => !((props.map Prod.fst).contains key)) := by
        simp only [List.mem_filter]
        exact ⟨hk, by simpa using hnk⟩
      cases hemp : ((fields.map Prod.fst).filter
          (fun key => !((props.map Prod.fst).contains key))).isEmpty with
      | true =>
        have hnil : (fields.map Prod.fst).filter
            (fun key => !((props.map Prod.fst).contains key)) = [] := by
          simpa [List.isEmpty_iff] using hemp
        rw [hnil] at hkin
        simp at hkin
      | false =>
        simp only [hemp] at hres
        cases hres
  · intro fuel s props fields hprops hadd hanyOf honeOf hallOf henum htype
      hreq hpr hne
    have hne' : ((fields.map Prod.fst).filter
        (fun key => !((props.map Prod.fst).contains key))).isEmpty = false := by
      simpa [List.isEmpty_iff] using hne
    simp only [validateAgainstSchema, hanyOf, honeOf, hallOf, henum, htype,
      hprops, hadd]
    simp [normalizeSchemaTypes, matchesSchemaType, validateObject, hprops,
      hadd, hreq, hpr, hne']
    obtain ⟨k, hkmem⟩ := List.exists_mem_of_ne_nil _ hne
    rw [List.mem_filter] at hkmem
    obtain ⟨hk1, hk2⟩ := hkmem
    have hk2' : k ∉ List.map Prod.fst props := by simpa using hk2
    refine ⟨k, ?_, ?_⟩
    · simpa using hk1
    · intro x1 hmem
      exact hk2' (by simpa using List.mem_map_of_mem Prod.fst hmem)

/-- `{type:"object", properties:{a:{type:"string"}}, additionalProperties:false}` -/
def c6WitnessSchema : JsonSchema :=
  .mk (some ["object"]) (some [("a", stringSchema)]) none none none
    (some (Sum.inl false)) none none none none none none none none

/-- Witness for the amended C6: the object `{a:"v", x:1}` against a
schema declaring only `a` is rejected with the error listing `x`. -/
theorem claim_C6_undeclared_key_rejection_witness :
    (∃ e, validateAgainstSchema 2 c6WitnessSchema
        (.obj [("a", .str "v"), ("x", .num 1)]) "#" = .error e ∧
      e.code = .VALIDATION_ERROR) ∧
    validateAgainstSchema 2 c6WitnessSchema
        (.obj [("a", .str "v"), ("x", .num 1)]) "#" =
      .error (validationError "Unexpected properties at #: x.") := by
  constructor
  · exact claim_C6_undeclared_key_rejection.1 1 c6WitnessSchema
      [("a", stringSchema)] [("a", .str "v"), ("x", .num 1)] "x" rfl rfl rfl
      rfl (by decide) (by decide)
  · exact claim_C6_undeclared_key_rejection.2 1 c6WitnessSchema
      [("a", stringSchema)] [("a", .str "v"), ("x", .num 1)] rfl rfl rfl rfl
      rfl rfl rfl rfl rfl (by decide)

theorem dropWhile_head_false (p : Char → Bool) (c : Char) (cs : List Char)
    (hfix : (c :: cs).dropWhile p = c :: cs) : p c = false := by
  by_contra hc
  rw [Bool.not_eq_false] at hc
  rw [List.dropWhile_cons, if_pos hc] at hfix
  have hlen := congrArg List.length hfix
  have hle := (List.dropWhile_sublist (l := cs) p).length_le
  simp at hlen
  omega

theorem dropWhile_fix_append (p : Char → Bool) (l t : List Char)
    (hfix : l.dropWhile p = l) (hne : l ≠ []) :
    (l ++ t).dropWhile p = l ++ t := by
  cases l with
  | nil => exact absurd rfl hne
  | cons c cs =>
    have hc := dropWhile_head_false p c cs hfix
    simp [List.dropWhile_cons, hc]

theorem trimList_fix (l : List Char) (h1 : l.dropWhile jsIsWs = l)
    (h2 : l.reverse.dropWhile jsIsWs = l.reverse) : trimList l = l := by
  unfold trimList trimLeftList trimRightList
  rw [h1, h2, List.reverse_reverse]

/-- On a payload whose text has no surrounding whitespace and does not
open with a code fence, both fence regexes fail and `stripCodeFences` is
the identity. -/
theorem stripCodeFences_unfenced (s : String)
    (h1 : s.data.dropWhile jsIsWs = s.data)
    (h2 : s.data.reverse.dropWhile jsIsWs = s.data.reverse)
    (h3 : s.data.take 3 ≠ "```".data) :
    stripCodeFences s = s := by
  simp only [stripCodeFences]
  rw [trimList_fix s.data h1 h2]
  have hj : fenceMatchJson s.data = none := by
    unfold fenceMatchJson
    rw [if_neg h3]
  have hp : fenceMatchPlain s.data = none := by
    unfold fenceMatchPlain
    rw [if_neg (fun hc => h3 hc.1)]
  rw [hj, hp]
  rfl

/-- The first fence regex on `"```json\n" ++ X ++ "\n```"` captures
exactly `X` when `X` is non-empty with no surrounding whitespace. -/
theorem fenceMatchJson_wrap (X : List Char) (h0 : X ≠ [])
    (h1 : X.dropWhile jsIsWs = X)
    (h2 : X.reverse.dropWhile jsIsWs = X.reverse) :
    fenceMatchJson ("```json\n".data ++ (X ++ "\n```".data)) = some X := by
  have e1 : ("```json\n".data ++ (X ++ "\n```".data)).take 3 = "```".data := by
    rw [List.take_append_eq_append_take,
      show 3 - ("```json\n".data).length = 0 from rfl, List.take_zero,
      List.append_nil]
    rfl
  have e2 : ("```json\n".data ++ (X ++ "\n```".data)).drop 3 =
      "json\n".data ++ (X ++ "\n```".data) := by
    rw [List.drop_append_eq_append_drop,
      show 3 - ("```json\n".data).length = 0 from rfl, List.drop_zero,
      show ("```json\n".data).drop 3 = "json\n".data from rfl]
  have e3 : (("json\n".data ++ (X ++ "\n```".data)).take 4).map Char.toLower =
      "json".data := by
    rw [List.take_append_eq_append_take,
      show 4 - ("json\n".data).length = 0 from rfl, List.take_zero,
      List.append_nil, show ("json\n".data).take 4 = "json".data from rfl]
    rfl
  have e4 : ("json\n".data ++ (X ++ "\n```".data)).drop 4 =
      ['\n'] ++ (X ++ "\n```".data) := by
    rw [List.drop_append_eq_append_drop,
      show 4 - ("json\n".data).length = 0 from rfl, List.drop_zero,
      show ("json\n".data).drop 4 = ['\n'] from rfl]
  have e5 : (['\n'] ++ (X ++ "\n```".data)).dropWhile jsIsWs =
      X ++ "\n```".data := by
    rw [show ['\n'] ++ (X ++ "\n```".data) = '\n' :: (X ++ "\n```".data)
      from rfl]
    rw [List.dropWhile_cons, if_pos (show jsIsWs '\n' = true from rfl)]
    exact dropWhile_fix_append jsIsWs X ("\n```".data) h1 h0
  have e6 : (X ++ "\n```".data).reverse =
      ("```".data ++ ['\n']) ++ X.reverse := by
    rw [List.reverse_append,
      show ("\n```".data).reverse = "```".data ++ ['\n'] from rfl]
  have e7 : ((("```".data ++ ['\n']) ++ X.reverse)).take 3 = "```".data := by
    rw [List.append_assoc, List.take_append_eq_append_take,
      show 3 - ("```".data).length = 0 from rfl, List.take_zero,
      List.append_nil]
    rfl
  have e8 : ((("```".data ++ ['\n']) ++ X.reverse)).drop 3 =
      ['\n'] ++ X.reverse := by
    rw [List.append_assoc, List.drop_append_eq_append_drop,
      show 3 - ("```".data).length = 0 from rfl, List.drop_zero,
      show ("```".data).drop 3 = [] from rfl, List.nil_append]
  have e9 : (['\n'] ++ X.reverse).dropWhile jsIsWs = X.reverse := by
    rw [show ['\n'] ++ X.reverse = '\n' :: X.reverse from rfl]
    rw [List.dropWhile_cons, if_pos (show jsIsWs '\n' = true from rfl)]
    exact h2
  simp only [fenceMatchJson]
  rw [if_pos e1, e2, if_pos e3, e4, e5, e6, if_pos e7, e8, e9,
    List.reverse_reverse]

/-- Wrapping a whitespace-free non-empty payload in `json` code fences
strips back to the payload itself. -/
theorem stripCodeFences_fenced (s : String) (h0 : s.data ≠ [])
    (h1 : s.data.dropWhile jsIsWs = s.data)
    (h2 : s.data.reverse.dropWhile jsIsWs = s.data.reverse) :
    stripCodeFences ("```json\n" ++ s ++ "\n```") = s := by
  have hWdata : ("```json\n" ++ s ++ "\n```").data =
      "```json\n".data ++ (s.data ++ "\n```".data) := by
    rw [String.data_append, String.data_append, List.append_assoc]
  have hrev : ("```json\n".data ++ (s.data ++ "\n```".data)).reverse =
      ("```".data ++ ['\n']) ++
        (s.data.reverse ++ ("```json\n".data).reverse) := by
    rw [List.reverse_append, List.reverse_append,
      show ("\n```".data).reverse = "```".data ++ ['\n'] from rfl,
      List.append_assoc]
  have htrimw : trimList ("```json\n".data ++ (s.data ++ "\n```".data)) =
      "```json\n".data ++ (s.data ++ "\n```".data) := by
    unfold trimList trimLeftList trimRightList
    rw [dropWhile_fix_append jsIsWs ("```json\n".data)
      (s.data ++ "\n```".data) (by decide) (by decide)]
    rw [hrev]
    rw [dropWhile_fix_append jsIsWs ("```".data ++ ['\n'])
      (s.data.reverse ++ ("```json\n".data).reverse) (by decide) (by decide)]
    rw [← hrev, List.reverse_reverse]
  have hie : s.data.isEmpty = false := by simpa [List.isEmpty_iff] using h0
  simp only [stripCodeFences]
  rw [hWdata, htrimw, fenceMatchJson_wrap s.data h0 h1 h2]
  rw [show (some s.data).orElse
    (fun _ => fenceMatchPlain ("```json\n".data ++ (s.data ++ "\n```".data)))
    = some s.data from rfl]
  simp only [hie, Bool.false_eq_true, if_false]
  rw [trimList_fix s.data h1 h2]

/-- C7: extracting structured content from a payload wrapped in Markdown
`json` code fences yields the same parsed value as the unfenced payload,
for every payload with the shape of a JSON serialization (non-empty,
no surrounding whitespace, not itself opening with a code fence) and
every behaviour of the builtin `JSON.parse`. -/
theorem claim_C7_fence_round_trip (jsonParse : String → Option Json)
    (s : String) (h0 : s.data ≠ [])
    (h1 : s.data.dropWhile jsIsWs = s.data)
    (h2 : s.data.reverse.dropWhile jsIsWs = s.data.reverse)
    (h3 : s.data.take 3 ≠ "```".data) :
    deserializeStructuredContent jsonParse ("```json\n" ++ s ++ "\n```") =
      deserializeStructuredContent jsonParse s := by
  unfold deserializeStructuredContent
  rw [stripCodeFences_fenced s h0 h1 h2, stripCodeFences_unfenced s h1 h2 h3]

/-- Witness for C7 at the serialization `null`. -/
theorem claim_C7_fence_round_trip_witness :
    deserializeStructuredContent (fun _ => some Json.null)
        ("```json\n" ++ "null" ++ "\n```") =
      deserializeStructuredContent (fun _ => some Json.null) "null" :=
  claim_C7_fence_round_trip (fun _ => some Json.null) "null" (by decide)
    (by decide) (by decide) (by decide)

/-- The two operations that write the system message. -/
def opTouchesSystem : ClientOp → Bool
  | .setSystem _ => true
  | .clearSystem => true
  | _ => false

theorem sendChatMessage_finalState_system (vfuel : Nat) (st : ClientState)
    (env : Env) (m : String) :
    (sendChatMessage vfuel st env m).finalState.currentSystemMessage =
      st.currentSystemMessage := by
  simp only [sendChatMessage]
  split <;> (split <;> rfl)

theorem applyOp_system_preserved (st : ClientState) (op : ClientOp)
    (h : opTouchesSystem op = false) :
    (applyOp st op).currentSystemMessage = st.currentSystemMessage := by
  cases op with
  | setSystem m => simp [opTouchesSystem] at h
  | clearSystem => simp [opTouchesSystem] at h
  | setUser m =>
    simp only [applyOp]
    cases hm : setUserMessage st m with
    | error e => rfl
    | ok st2 =>
      simp only [setUserMessage, ensureNonEmptyMessage] at hm
      split at hm
      · cases hm
        rfl
      · cases hm
  | clearUser => rfl
  | setResponseFmt schema opts =>
    simp only [applyOp]
    cases hm : setResponseFormat st schema opts with
    | error e => rfl
    | ok st2 =>
      simp only [setResponseFormat] at hm
      split at hm
      · cases hm
      · cases hm
        cases hnm : opts.name.map jsTrim with
        | none =>
          simp only [hnm]
          cases httl : schema.title.map jsTrim with
          | none => rfl
          | some t =>
            simp only [httl]
            split <;> rfl
        | some n =>
          simp only [hnm]
          split
          · cases httl : schema.title.map jsTrim with
            | none => rfl
            | some t =>
              simp only [httl]
              split <;> rfl
          · rfl
  | clearResponseFmt => rfl
  | setModelName name =>
    simp only [applyOp]
    cases hm : setModel st name with
    | error e => rfl
    | ok st2 =>
      simp only [setModel] at hm
      split at hm
      · cases hm
      · cases hm
        rfl
  | send vfuel env m =>
    simp only [applyOp]
    exact sendChatMessage_finalState_system vfuel st env m

theorem applyOps_system_preserved :
    ∀ (ops : List ClientOp),
      (∀ op ∈ ops, opTouchesSystem op = false) →
      ∀ st : ClientState,
        (applyOps st ops).currentSystemMessage = st.currentSystemMessage := by
  intro ops
  induction ops with
  | nil => intro h st; rfl
  | cons op rest ih =>
    intro h st
    have h1 := h op (List.mem_cons_self op rest)
    have h2 : ∀ op2 ∈ rest, opTouchesSystem op2 = false :=
      fun op2 hm => h op2 (List.mem_cons_of_mem op hm)
    exact (ih h2 (applyOp st op)).trans (applyOp_system_preserved st op h1)

theorem applyOp_system_nonempty (st : ClientState) (op : ClientOp)
    (hop : op ≠ .clearSystem) (h : st.currentSystemMessage ≠ "") :
    (applyOp st op).currentSystemMessage ≠ "" := by
  cases op with
  | clearSystem => exact absurd rfl hop
  | setSystem m =>
    simp only [applyOp]
    cases hm : setSystemMessage st m with
    | error e => exact h
    | ok st2 =>
      simp only [setSystemMessage, ensureNonEmptyMessage] at hm
      split at hm
      · rename_i trimmed heq
        cases hm
        split at heq
        · cases heq
        · cases heq
          rename_i hne2
          exact hne2
      · cases hm
  | setUser m =>
    rw [applyOp_system_preserved st (ClientOp.setUser m) rfl]; exact h
  | clearUser =>
    rw [applyOp_system_preserved st ClientOp.clearUser rfl]; exact h
  | setResponseFmt schema opts =>
    rw [applyOp_system_preserved st (ClientOp.setResponseFmt schema opts) rfl]
    exact h
  | clearResponseFmt =>
    rw [applyOp_system_preserved st ClientOp.clearResponseFmt rfl]; exact h
  | setModelName name =>
    rw [applyOp_system_preserved st (ClientOp.setModelName name) rfl]; exact h
  | send vfuel env m =>
    rw [applyOp_system_preserved st (ClientOp.send vfuel env m) rfl]; exact h

theorem applyOps_system_nonempty :
    ∀ (ops : List ClientOp), (∀ op ∈ ops, op ≠ ClientOp.clearSystem) →
      ∀ st : ClientState, st.currentSystemMessage ≠ "" →
        (applyOps st ops).currentSystemMessage ≠ "" := by
  intro ops
  induction ops with
  | nil => intro h st hne; exact hne
  | cons op rest ih =>
    intro h st hne
    have h1 := h op (List.mem_cons_self op rest)
    have h2 : ∀ op2 ∈ rest, op2 ≠ ClientOp.clearSystem :=
      fun op2 hm => h op2 (List.mem_cons_of_mem op hm)
    exact ih h2 (applyOp st op) (applyOp_system_nonempty st op h1 hne)

/-- C9: a fresh client carries the non-empty default system message; as
long as neither `setSystemMessage` nor `clearSystemMessage` is called it
stays the default, so every payload the client builds opens with the
system entry; and with `setSystemMessage` allowed but
`clearSystemMessage` never called, the system message can never become
empty — an empty message-list head only occurs after
`clearSystemMessage`. -/
theorem claim_C9_default_system_message :
    (∀ (options : ServiceOptions) (pKey mKey : Option String),
      (OpenRouterService.make options pKey mKey).currentSystemMessage =
        DEFAULT_SYSTEM_MESSAGE) ∧
    DEFAULT_SYSTEM_MESSAGE ≠ "" ∧
    (∀ (options : ServiceOptions) (pKey mKey : Option String)
        (ops : List ClientOp),
      (∀ op ∈ ops, opTouchesSystem op = false) →
      (applyOps (OpenRouterService.make options pKey mKey)
        ops).currentSystemMessage = DEFAULT_SYSTEM_MESSAGE) ∧
    (∀ (st : ClientState) (userMessage : String),
      st.currentSystemMessage ≠ "" →
      (buildRequestPayload st userMessage).messages =
        ⟨"system", st.currentSystemMessage⟩ :: [⟨"user", userMessage⟩]) ∧
    (∀ (options : ServiceOptions) (pKey mKey : Option String)
        (ops : List ClientOp),
      (∀ op ∈ ops, op ≠ ClientOp.clearSystem) →
      (applyOps (OpenRouterService.make options pKey mKey)
        ops).currentSystemMessage ≠ "") := by
  refine ⟨fun _ _ _ => rfl, by decide, ?_, ?_, ?_⟩
  · intro options pKey mKey ops h
    exact applyOps_system_preserved ops h (OpenRouterService.make options pKey mKey)
  · intro st userMessage h
    simp [buildRequestPayload, h]
  · intro options pKey mKey ops h
    exact applyOps_system_nonempty ops h
      (OpenRouterService.make options pKey mKey)
      (fun hemp => (by decide : DEFAULT_SYSTEM_MESSAGE ≠ "") hemp)

def c9Env : Env := ⟨fun _ => .failure false, fun _ => none⟩

/-- Witness for C9: a concrete operation sequence without system-message
writes keeps the default, and one with `setSystemMessage` but no clear
keeps the system message non-empty. -/
theorem claim_C9_default_system_message_witness :
    (applyOps (OpenRouterService.make ServiceOptions.empty none none)
      [ClientOp.setUser "topic", ClientOp.send 1 c9Env "hello",
        ClientOp.clearResponseFmt]).currentSystemMessage =
      DEFAULT_SYSTEM_MESSAGE ∧
    (applyOps (OpenRouterService.make ServiceOptions.empty none none)
      [ClientOp.setSystem "focus", ClientOp.send 1 c9Env "hi"]).currentSystemMessage ≠ "" := by
  constructor
  · exact claim_C9_default_system_message.2.2.1 ServiceOptions.empty none none
      [ClientOp.setUser "topic", ClientOp.send 1 c9Env "hello",
        ClientOp.clearResponseFmt]
      (by simp [List.forall_mem_cons, opTouchesSystem])
  · exact claim_C9_default_system_message.2.2.2.2 ServiceOptions.empty none
      none [ClientOp.setSystem "focus", ClientOp.send 1 c9Env "hi"]
      (by simp [List.forall_mem_cons])

end OpenRouter
